import Mathlib

/-!
# UHD-Fairwaves: device control dispatcher, device data router, host async queue

Shallow embedding of

* `firmware/zpu/apps/txrx_uhd.c`: `handle_udp_data_packet`, `handle_udp_ctrl_packet`;
* `old/host/lib/usrp/b100/io_impl.cpp`: `handle_async_message`, `recv_async_msg`,
  `get_rx_stream`, `get_tx_stream`, `update_tick_rate`, `update_rx_samp_rate`,
  `update_tx_samp_rate`.

Calls into code outside these files (SPI, I2C, ARP cache, framer, VRT codec, DSP cores)
are recorded as events in the order the source makes them; what such a call returns is
read from an environment record.  Constants that come from headers outside these files
are fields of a record of constants.
-/

namespace Fw

/-! ## Firmware: build switches, constants, environment -/

/-- Conditional-compilation switches used by `txrx_uhd.c` in the two UDP handlers. -/
structure Build where
  UMTRX : Bool
  NO_SPI_I2C : Bool
  deriving DecidableEq, Repr

/-- Constants of `usrp2/fw_common.h`, `spi.h` and the type sizes used by the handlers.
The headers are outside the translated files, so the values are fields. -/
structure Consts where
  USRP2_FW_COMPAT_NUM : Nat
  sizeof_usrp2_ctrl_data_t : Nat
  USRP2_UDP_CTRL_PORT : Nat
  USRP2_UDP_RX_DSP0_PORT : Nat
  USRP2_UDP_RX_DSP1_PORT : Nat
  USRP2_UDP_RX_DSP0_2_PORT : Nat
  USRP2_UDP_RX_DSP1_2_PORT : Nat
  USRP2_CTRL_ID_HUH_WHAT : Nat
  UMTRX_CTRL_ID_REQUEST : Nat
  UMTRX_CTRL_ID_RESPONSE : Nat
  UMTRX_CTRL_ID_ZPU_REQUEST : Nat
  UMTRX_CTRL_ID_ZPU_RESPONSE : Nat
  USRP2_CTRL_ID_WAZZUP_BRO : Nat
  USRP2_CTRL_ID_WAZZUP_DUDE : Nat
  USRP2_CTRL_ID_TRANSACT_ME_SOME_SPI_BRO : Nat
  USRP2_CTRL_ID_OMG_TRANSACTED_SPI_DUDE : Nat
  USRP2_CTRL_ID_DO_AN_I2C_READ_FOR_ME_BRO : Nat
  USRP2_CTRL_ID_HERES_THE_I2C_DATA_DUDE : Nat
  USRP2_CTRL_ID_WRITE_THESE_I2C_VALUES_BRO : Nat
  USRP2_CTRL_ID_COOL_IM_DONE_I2C_WRITE_DUDE : Nat
  USRP2_CTRL_ID_GET_THIS_REGISTER_FOR_ME_BRO : Nat
  USRP2_CTRL_ID_OMG_GOT_REGISTER_SO_BAD_DUDE : Nat
  USRP2_CTRL_ID_HOLLER_AT_ME_BRO : Nat
  USRP2_CTRL_ID_HOLLER_BACK_DUDE : Nat
  UMTRX_ZPU_REQUEST_GET_VCTCXO_DAC : Nat
  UMTRX_ZPU_REQUEST_SET_VCTCXO_DAC : Nat
  USRP2_REG_ACTION_FPGA_PEEK32 : Nat
  USRP2_REG_ACTION_FPGA_PEEK16 : Nat
  USRP2_REG_ACTION_FPGA_POKE32 : Nat
  USRP2_REG_ACTION_FPGA_POKE16 : Nat
  USRP2_REG_ACTION_FW_PEEK32 : Nat
  USRP2_REG_ACTION_FW_POKE32 : Nat
  USRP2_CLK_EDGE_RISE : Nat
  SPI_TXONLY : Nat
  SPI_TXRX : Nat
  SPIF_PUSH_FALL : Nat
  SPIF_PUSH_RISE : Nat
  SPIF_LATCH_RISE : Nat
  SPIF_LATCH_FALL : Nat
  deriving DecidableEq, Repr

/-- A `struct socket_address`: network address and UDP port. -/
structure socket_address where
  addr : Nat
  port : Nat
  deriving DecidableEq, Repr

/-- Arm `spi_args` of the union in `usrp2_ctrl_data_t`. -/
structure spi_args_t where
  dev : Nat
  data : Nat
  miso_edge : Nat
  mosi_edge : Nat
  readback : Nat
  num_bits : Nat
  deriving DecidableEq, Repr

/-- Arm `i2c_args` of the union in `usrp2_ctrl_data_t`. -/
structure i2c_args_t where
  addr : Nat
  bytes : Nat
  data : List Nat
  deriving DecidableEq, Repr

/-- Arm `reg_args` of the union in `usrp2_ctrl_data_t`. -/
structure reg_args_t where
  addr : Nat
  data : Nat
  action : Nat
  deriving DecidableEq, Repr

/-- Arm `zpu_action` of the union in `usrp2_ctrl_data_t` (UMTRX build). -/
structure zpu_action_t where
  action : Nat
  data : Nat
  deriving DecidableEq, Repr

/-- Arm `echo_args` of the union in `usrp2_ctrl_data_t`. -/
structure echo_args_t where
  len : Nat
  deriving DecidableEq, Repr

/-- The union `data` of `usrp2_ctrl_data_t`, one field per arm the handler reads or
writes.  Each arm is kept as a field of its own: the overlap of the arms in memory is
not part of the model, so an assignment to one arm leaves the others as they were. -/
structure ctrl_union_t where
  ip_addr : Nat
  spi_args : spi_args_t
  i2c_args : i2c_args_t
  reg_args : reg_args_t
  zpu_action : zpu_action_t
  echo_args : echo_args_t
  deriving DecidableEq, Repr

/-- The control message `usrp2_ctrl_data_t`, as the handler reads its members. -/
structure usrp2_ctrl_data_t where
  proto_ver : Nat
  id : Nat
  seq : Nat
  data : ctrl_union_t
  deriving DecidableEq, Repr

/-- The four receive-control register blocks written by `handle_udp_data_packet`. -/
inductive RxCtrlReg where
  | sr_rx_ctrl0
  | sr_rx_ctrl1
  | sr_rx_ctrl0_2
  | sr_rx_ctrl1_2
  deriving DecidableEq, Repr

/-- The members of a receive-control register block that the handler assigns. -/
inductive RxCtrlField where
  | cmd
  | time_secs
  | time_ticks
  deriving DecidableEq, Repr

/-- Everything the two handlers do to the outside, in program order. -/
inductive Event where
  | printf_compat (expected got : Nat)
  | printf_length (expected : Nat) (got : Int)
  | get_ip_addr
  | get_vctcxo_dac
  | set_vctcxo_dac (val : Nat)
  | spi_transact (readback dev data num_bits flags : Nat)
  | i2c_read (addr num_bytes : Nat)
  | i2c_write (addr : Nat) (data : List Nat) (num_bytes : Nat)
  | peek32 (addr : Nat)
  | peek16 (addr : Nat)
  | poke32 (addr val : Nat)
  | poke16 (addr val : Nat)
  | fw_regs_read (index : Nat)
  | fw_regs_write (index val : Nat)
  | send_udp_pkt (src_port : Nat) (dst : socket_address) (buf : usrp2_ctrl_data_t) (len : Nat)
  | rx_ctrl_write (reg : RxCtrlReg) (field : RxCtrlField) (val : Nat)
  | arp_cache_lookup_mac (ip : Nat)
  | setup_framer (eth_dst eth_src : Nat) (src dst : socket_address) (which : Nat)
  deriving DecidableEq, Repr

/-- What the calls and memory reads outside `txrx_uhd.c` return. -/
structure Hw where
  /-- Result of `get_ip_addr()`. -/
  get_ip_addr : Nat
  /-- Result of `*ethernet_mac_addr()`. -/
  ethernet_mac_addr : Nat
  /-- The content of the out-parameter of `arp_cache_lookup_mac(ip, mac)` after the call,
  given the address and the content before the call. -/
  arp_cache_lookup_mac : Nat → Nat → Nat
  /-- Result of `spi_transact(readback, dev, data, num_bits, flags)`. -/
  spi_transact : Nat → Nat → Nat → Nat → Nat → Nat
  /-- The content of the buffer handed to `i2c_read(addr, buf, n)` after the call, given the
  content before the call. -/
  i2c_read : Nat → Nat → List Nat → List Nat
  /-- The 32-bit word read at a peeked address. -/
  read32 : Nat → Nat
  /-- The 16-bit word read at a peeked address. -/
  read16 : Nat → Nat
  /-- Result of `get_vctcxo_dac()`. -/
  get_vctcxo_dac : Nat
  /-- The word found at `fw_regs + index` for an index past the end of the array. -/
  beyond_fw_regs : Nat → Nat

/-- Conversion of a C `int` to the 32-bit `size_t` / `uint32_t` of the ZPU. -/
def to_uint32 (x : Int) : Nat := (x % (2 ^ 32 : Int)).toNat

/-- The value of `sizeof(uint32_t)`. -/
def sizeof_uint32_t : Nat := 4

/-- The array `static uint32_t fw_regs[8]`. -/
abbrev FwRegs := Fin 8 → Nat

/-- The expression `fw_regs[i]` as an rvalue.  The source makes no range check: an index
of 8 or more reads the word at that offset past the array. -/
def fw_regs_get (hw : Hw) (fw_regs : FwRegs) (i : Nat) : Nat :=
  if h : i < 8 then fw_regs ⟨i, h⟩ else hw.beyond_fw_regs i

/-- The assignment `fw_regs[i] = v`.  The source makes no range check: an index of 8 or
more stores past the array and leaves the eight elements as they were. -/
def fw_regs_set (fw_regs : FwRegs) (i v : Nat) : FwRegs :=
  if h : i < 8 then Function.update fw_regs ⟨i, h⟩ v else fw_regs

/-! ## `handle_udp_data_packet` -/

/-- One receive-control register block: the three members the handler assigns. -/
structure sr_rx_ctrl_t where
  cmd : Nat
  time_secs : Nat
  time_ticks : Nat
  deriving DecidableEq, Repr

/-- The four receive-control register blocks of the device. -/
structure RxCtrlRegs where
  sr_rx_ctrl0 : sr_rx_ctrl_t
  sr_rx_ctrl1 : sr_rx_ctrl_t
  sr_rx_ctrl0_2 : sr_rx_ctrl_t
  sr_rx_ctrl1_2 : sr_rx_ctrl_t
  deriving DecidableEq, Repr

/-- Read one of the four register blocks. -/
def RxCtrlRegs.get (s : RxCtrlRegs) : RxCtrlReg → sr_rx_ctrl_t
  | .sr_rx_ctrl0 => s.sr_rx_ctrl0
  | .sr_rx_ctrl1 => s.sr_rx_ctrl1
  | .sr_rx_ctrl0_2 => s.sr_rx_ctrl0_2
  | .sr_rx_ctrl1_2 => s.sr_rx_ctrl1_2

/-- Replace one of the four register blocks. -/
def RxCtrlRegs.put (s : RxCtrlRegs) (r : RxCtrlReg) (v : sr_rx_ctrl_t) : RxCtrlRegs :=
  match r with
  | .sr_rx_ctrl0 => { s with sr_rx_ctrl0 := v }
  | .sr_rx_ctrl1 => { s with sr_rx_ctrl1 := v }
  | .sr_rx_ctrl0_2 => { s with sr_rx_ctrl0_2 := v }
  | .sr_rx_ctrl1_2 => { s with sr_rx_ctrl1_2 := v }

/-- The constant `1 << 31 | 1 << 28` stored into a 32-bit register. -/
def end_streaming_cmd : Nat := ((1 <<< 31) ||| (1 <<< 28)) % 2 ^ 32

/-- The three assignments of one `case` of the first switch:
`reg->cmd = 1 << 31 | 1 << 28; reg->time_secs = 0; reg->time_ticks = 0;`. -/
def end_streaming (s : RxCtrlRegs) (r : RxCtrlReg) : RxCtrlRegs × List Event :=
  let s1 := s.put r { s.get r with cmd := end_streaming_cmd }
  let s2 := s1.put r { s1.get r with time_secs := 0 }
  let s3 := s2.put r { s2.get r with time_ticks := 0 }
  (s3, [Event.rx_ctrl_write r .cmd end_streaming_cmd,
        Event.rx_ctrl_write r .time_secs 0,
        Event.rx_ctrl_write r .time_ticks 0])

/-- The first switch, `if (payload == NULL) switch(src.port)`: the register block that
is written, or `none` for `default: return`. -/
def unreachable_case (c : Consts) (port : Nat) : Option RxCtrlReg :=
  if port = c.USRP2_UDP_RX_DSP0_PORT then some .sr_rx_ctrl0
  else if port = c.USRP2_UDP_RX_DSP1_PORT then some .sr_rx_ctrl1
  else if port = c.USRP2_UDP_RX_DSP0_2_PORT then some .sr_rx_ctrl0_2
  else if port = c.USRP2_UDP_RX_DSP1_2_PORT then some .sr_rx_ctrl1_2
  else none

/-- The second switch, `if (payload != 0) switch(dst.port)`: the value given to `which`,
or `none` for `default: return`. -/
def which_case (c : Consts) (port : Nat) : Option Nat :=
  if port = c.USRP2_UDP_RX_DSP0_PORT then some 0
  else if port = c.USRP2_UDP_RX_DSP1_PORT then some 2
  else if port = c.USRP2_UDP_RX_DSP0_2_PORT then some 1
  else if port = c.USRP2_UDP_RX_DSP1_2_PORT then some 3
  else none

/-- The last two statements of `handle_udp_data_packet`:
`arp_cache_lookup_mac(&src.addr, &eth_mac_host); setup_framer(eth_mac_host,
*ethernet_mac_addr(), src, dst, which);`.  `eth_mac_host0` is the content of the
uninitialised local `eth_mac_host` before the lookup. -/
def program_framer (hw : Hw) (eth_mac_host0 : Nat) (src dst : socket_address)
    (which : Nat) : List Event :=
  [Event.arp_cache_lookup_mac src.addr,
   Event.setup_framer (hw.arp_cache_lookup_mac src.addr eth_mac_host0)
     hw.ethernet_mac_addr src dst which]

/-- The function `handle_udp_data_packet(src, dst, payload, payload_len)`.  `payload` is
`none` for the null pointer of an ICMP destination unreachable and `some bytes`
otherwise.  The result is the register blocks after the call and the events of the call. -/
def handle_udp_data_packet (c : Consts) (hw : Hw) (eth_mac_host0 : Nat) (regs : RxCtrlRegs)
    (src dst : socket_address) (payload : Option (List Nat)) (_payload_len : Int) :
    RxCtrlRegs × List Event :=
  match payload with
  | none =>
    -- handle ICMP destination unreachable
    match unreachable_case c src.port with
    | none => (regs, [])
    | some r =>
      let (regs1, ev) := end_streaming regs r
      -- `which = 0`, the second switch is skipped because `payload != 0` is false
      (regs1, ev ++ program_framer hw eth_mac_host0 src dst 0)
  | some _ =>
    -- handle an incoming UDP packet
    match which_case c dst.port with
    | none => (regs, [])
    | some which => (regs, program_framer hw eth_mac_host0 src dst which)

/-! ## `handle_udp_ctrl_packet` -/

/-- The local `ctrl_data_in_id` when the switch is reached: the `id` member of the
request, replaced by the addressing request id when
`payload_len >= sizeof(uint32_t) && ctrl_data_in->proto_ver != USRP2_FW_COMPAT_NUM`, and
then replaced by `USRP2_CTRL_ID_HUH_WHAT` when `payload_len < sizeof(usrp2_ctrl_data_t)`.
Both comparisons are made in `size_t`, so the `int` is converted first. -/
def final_id (b : Build) (c : Consts) (ctrl_data_in : usrp2_ctrl_data_t)
    (payload_len : Int) : Nat :=
  let ctrl_data_in_id := ctrl_data_in.id
  let ctrl_data_in_id :=
    if to_uint32 payload_len ≥ sizeof_uint32_t ∧
        ctrl_data_in.proto_ver ≠ c.USRP2_FW_COMPAT_NUM then
      (if b.UMTRX then c.UMTRX_CTRL_ID_REQUEST else c.USRP2_CTRL_ID_WAZZUP_BRO)
    else ctrl_data_in_id
  if to_uint32 payload_len < c.sizeof_usrp2_ctrl_data_t then c.USRP2_CTRL_ID_HUH_WHAT
  else ctrl_data_in_id

/-- The two `printf` calls of the validation part, in order. -/
def validation_prints (c : Consts) (ctrl_data_in : usrp2_ctrl_data_t)
    (payload_len : Int) : List Event :=
  (if to_uint32 payload_len ≥ sizeof_uint32_t ∧
        ctrl_data_in.proto_ver ≠ c.USRP2_FW_COMPAT_NUM ∧ ctrl_data_in.proto_ver ≠ 0 then
      [Event.printf_compat c.USRP2_FW_COMPAT_NUM ctrl_data_in.proto_ver]
    else []) ++
  (if to_uint32 payload_len < c.sizeof_usrp2_ctrl_data_t then
      [Event.printf_length c.sizeof_usrp2_ctrl_data_t payload_len]
    else [])

/-- State of the handler at the end of the `switch`. -/
structure Dispatch where
  fw_regs : FwRegs
  ctrl_data_out : usrp2_ctrl_data_t
  events : List Event
  /-- The case left the function with `return` (only the echo case does). -/
  returned : Bool

/-- The fifth argument of `spi_transact`, parsed as C parses it:
`(mosi == RISE) ? SPIF_PUSH_FALL : ((SPIF_PUSH_RISE | (miso == RISE)) ? SPIF_LATCH_RISE
: SPIF_LATCH_FALL)`, because `|` binds tighter than `?:` and `?:` groups to the right. -/
def spi_flags (c : Consts) (mosi_edge miso_edge : Nat) : Nat :=
  if mosi_edge = c.USRP2_CLK_EDGE_RISE then c.SPIF_PUSH_FALL
  else if (c.SPIF_PUSH_RISE ||| (if miso_edge = c.USRP2_CLK_EDGE_RISE then 1 else 0)) ≠ 0 then
    c.SPIF_LATCH_RISE
  else c.SPIF_LATCH_FALL

/-- The `case UMTRX_CTRL_ID_REQUEST` / `case USRP2_CTRL_ID_WAZZUP_BRO` arm. -/
def case_addressing (b : Build) (c : Consts) (hw : Hw) (fw_regs : FwRegs)
    (out : usrp2_ctrl_data_t) : Dispatch :=
  let out := { out with
    id := if b.UMTRX then c.UMTRX_CTRL_ID_RESPONSE else c.USRP2_CTRL_ID_WAZZUP_DUDE }
  let out := { out with data.ip_addr := hw.get_ip_addr }
  ⟨fw_regs, out, [Event.get_ip_addr], false⟩

/-- The `case UMTRX_CTRL_ID_ZPU_REQUEST` arm (UMTRX build). -/
def case_zpu (c : Consts) (hw : Hw) (fw_regs : FwRegs) (ctrl_data_in out : usrp2_ctrl_data_t) :
    Dispatch :=
  let out := { out with id := c.UMTRX_CTRL_ID_ZPU_RESPONSE }
  let out := { out with data.zpu_action.action := ctrl_data_in.data.zpu_action.action }
  if ctrl_data_in.data.zpu_action.action = c.UMTRX_ZPU_REQUEST_GET_VCTCXO_DAC then
    ⟨fw_regs, { out with data.zpu_action.data := hw.get_vctcxo_dac % 2 ^ 32 },
      [Event.get_vctcxo_dac], false⟩
  else if ctrl_data_in.data.zpu_action.action = c.UMTRX_ZPU_REQUEST_SET_VCTCXO_DAC then
    ⟨fw_regs, out, [Event.set_vctcxo_dac (ctrl_data_in.data.zpu_action.data % 2 ^ 16)], false⟩
  else ⟨fw_regs, out, [], false⟩

/-- The `case USRP2_CTRL_ID_TRANSACT_ME_SOME_SPI_BRO` arm. -/
def case_spi (c : Consts) (hw : Hw) (fw_regs : FwRegs) (ctrl_data_in out : usrp2_ctrl_data_t) :
    Dispatch :=
  let a := ctrl_data_in.data.spi_args
  let readback := if a.readback = 0 then c.SPI_TXONLY else c.SPI_TXRX
  let flags := spi_flags c a.mosi_edge a.miso_edge
  let result := hw.spi_transact readback a.dev a.data a.num_bits flags
  let out := { out with data.spi_args.data := result }
  let out := { out with id := c.USRP2_CTRL_ID_OMG_TRANSACTED_SPI_DUDE }
  ⟨fw_regs, out, [Event.spi_transact readback a.dev a.data a.num_bits flags], false⟩

/-- The `case USRP2_CTRL_ID_DO_AN_I2C_READ_FOR_ME_BRO` arm. -/
def case_i2c_read (c : Consts) (hw : Hw) (fw_regs : FwRegs)
    (ctrl_data_in out : usrp2_ctrl_data_t) : Dispatch :=
  let num_bytes := ctrl_data_in.data.i2c_args.bytes
  let out := { out with
    data.i2c_args.data := hw.i2c_read ctrl_data_in.data.i2c_args.addr num_bytes
      out.data.i2c_args.data }
  let out := { out with id := c.USRP2_CTRL_ID_HERES_THE_I2C_DATA_DUDE }
  let out := { out with data.i2c_args.bytes := num_bytes }
  ⟨fw_regs, out, [Event.i2c_read ctrl_data_in.data.i2c_args.addr num_bytes], false⟩

/-- The `case USRP2_CTRL_ID_WRITE_THESE_I2C_VALUES_BRO` arm. -/
def case_i2c_write (c : Consts) (fw_regs : FwRegs) (ctrl_data_in out : usrp2_ctrl_data_t) :
    Dispatch :=
  let num_bytes := ctrl_data_in.data.i2c_args.bytes
  let out := { out with id := c.USRP2_CTRL_ID_COOL_IM_DONE_I2C_WRITE_DUDE }
  let out := { out with data.i2c_args.bytes := num_bytes }
  ⟨fw_regs, out,
    [Event.i2c_write ctrl_data_in.data.i2c_args.addr ctrl_data_in.data.i2c_args.data num_bytes],
    false⟩

/-- The `case USRP2_CTRL_ID_GET_THIS_REGISTER_FOR_ME_BRO` arm: the inner switch on
`reg_args.action`, then `ctrl_data_out.id = USRP2_CTRL_ID_OMG_GOT_REGISTER_SO_BAD_DUDE`. -/
def case_reg (c : Consts) (hw : Hw) (fw_regs : FwRegs) (ctrl_data_in out : usrp2_ctrl_data_t) :
    Dispatch :=
  let a := ctrl_data_in.data.reg_args
  let done := c.USRP2_CTRL_ID_OMG_GOT_REGISTER_SO_BAD_DUDE
  if a.action = c.USRP2_REG_ACTION_FPGA_PEEK32 then
    ⟨fw_regs, { out with data.reg_args.data := hw.read32 a.addr, id := done },
      [Event.peek32 a.addr], false⟩
  else if a.action = c.USRP2_REG_ACTION_FPGA_PEEK16 then
    ⟨fw_regs, { out with data.reg_args.data := hw.read16 a.addr, id := done },
      [Event.peek16 a.addr], false⟩
  else if a.action = c.USRP2_REG_ACTION_FPGA_POKE32 then
    ⟨fw_regs, { out with id := done }, [Event.poke32 a.addr (a.data % 2 ^ 32)], false⟩
  else if a.action = c.USRP2_REG_ACTION_FPGA_POKE16 then
    ⟨fw_regs, { out with id := done }, [Event.poke16 a.addr (a.data % 2 ^ 16)], false⟩
  else if a.action = c.USRP2_REG_ACTION_FW_PEEK32 then
    ⟨fw_regs, { out with data.reg_args.data := fw_regs_get hw fw_regs a.addr, id := done },
      [Event.fw_regs_read a.addr], false⟩
  else if a.action = c.USRP2_REG_ACTION_FW_POKE32 then
    ⟨fw_regs_set fw_regs a.addr a.data, { out with id := done },
      [Event.fw_regs_write a.addr a.data], false⟩
  else ⟨fw_regs, { out with id := done }, [], false⟩

/-- The `case USRP2_CTRL_ID_HOLLER_AT_ME_BRO` arm: it sends `ctrl_data_out` itself, with
the length found in the request, and returns. -/
def case_echo (c : Consts) (fw_regs : FwRegs) (src : socket_address)
    (ctrl_data_in out : usrp2_ctrl_data_t) (payload_len : Int) : Dispatch :=
  let out := { out with data.echo_args.len := to_uint32 payload_len }
  let out := { out with id := c.USRP2_CTRL_ID_HOLLER_BACK_DUDE }
  ⟨fw_regs, out,
    [Event.send_udp_pkt c.USRP2_UDP_CTRL_PORT src out ctrl_data_in.data.echo_args.len], true⟩

/-- The `default` arm. -/
def case_default (c : Consts) (fw_regs : FwRegs) (out : usrp2_ctrl_data_t) : Dispatch :=
  ⟨fw_regs, { out with id := c.USRP2_CTRL_ID_HUH_WHAT }, [], false⟩

/-- The statement `switch(ctrl_data_in_id)`: the case labels in source order, the ones
under `#ifdef UMTRX`, `#else` and `#ifndef NO_SPI_I2C` present only in that build. -/
def dispatch (b : Build) (c : Consts) (hw : Hw) (fw_regs : FwRegs) (src : socket_address)
    (ctrl_data_in out : usrp2_ctrl_data_t) (payload_len : Int) (ctrl_data_in_id : Nat) :
    Dispatch :=
  if b.UMTRX = true ∧ ctrl_data_in_id = c.UMTRX_CTRL_ID_REQUEST then
    case_addressing b c hw fw_regs out
  else if b.UMTRX = false ∧ ctrl_data_in_id = c.USRP2_CTRL_ID_WAZZUP_BRO then
    case_addressing b c hw fw_regs out
  else if b.UMTRX = true ∧ ctrl_data_in_id = c.UMTRX_CTRL_ID_ZPU_REQUEST then
    case_zpu c hw fw_regs ctrl_data_in out
  else if b.NO_SPI_I2C = false ∧
      ctrl_data_in_id = c.USRP2_CTRL_ID_TRANSACT_ME_SOME_SPI_BRO then
    case_spi c hw fw_regs ctrl_data_in out
  else if b.NO_SPI_I2C = false ∧
      ctrl_data_in_id = c.USRP2_CTRL_ID_DO_AN_I2C_READ_FOR_ME_BRO then
    case_i2c_read c hw fw_regs ctrl_data_in out
  else if b.NO_SPI_I2C = false ∧
      ctrl_data_in_id = c.USRP2_CTRL_ID_WRITE_THESE_I2C_VALUES_BRO then
    case_i2c_write c fw_regs ctrl_data_in out
  else if ctrl_data_in_id = c.USRP2_CTRL_ID_GET_THIS_REGISTER_FOR_ME_BRO then
    case_reg c hw fw_regs ctrl_data_in out
  else if ctrl_data_in_id = c.USRP2_CTRL_ID_HOLLER_AT_ME_BRO then
    case_echo c fw_regs src ctrl_data_in out payload_len
  else case_default c fw_regs out

/-- The function `handle_udp_ctrl_packet(src, dst, payload, payload_len)`.
`ctrl_data_in` is the request as read through `(usrp2_ctrl_data_t *)payload`,
`ctrl_data_out0` the content of the uninitialised local `ctrl_data_out` on entry.
The result is `fw_regs` after the call and the events of the call. -/
def handle_udp_ctrl_packet (b : Build) (c : Consts) (hw : Hw) (fw_regs : FwRegs)
    (ctrl_data_out0 : usrp2_ctrl_data_t) (src _dst : socket_address)
    (ctrl_data_in : usrp2_ctrl_data_t) (payload_len : Int) : FwRegs × List Event :=
  let ctrl_data_in_id := final_id b c ctrl_data_in payload_len
  -- setup the output data
  let ctrl_data_out := { ctrl_data_out0 with
    proto_ver := c.USRP2_FW_COMPAT_NUM,
    id := c.USRP2_CTRL_ID_HUH_WHAT,
    seq := ctrl_data_in.seq }
  -- handle the data based on the id
  let d := dispatch b c hw fw_regs src ctrl_data_in ctrl_data_out payload_len ctrl_data_in_id
  (d.fw_regs,
    validation_prints c ctrl_data_in payload_len ++ d.events ++
      (if d.returned then []
       else [Event.send_udp_pkt c.USRP2_UDP_CTRL_PORT src d.ctrl_data_out
              c.sizeof_usrp2_ctrl_data_t]))

/-! ## Vocabulary for the statements about the firmware -/

/-- The case labels of `switch(ctrl_data_in_id)` that are compiled into build `b`, in
source order. -/
def case_labels (b : Build) (c : Consts) : List Nat :=
  (if b.UMTRX then [c.UMTRX_CTRL_ID_REQUEST] else [c.USRP2_CTRL_ID_WAZZUP_BRO]) ++
  (if b.UMTRX then [c.UMTRX_CTRL_ID_ZPU_REQUEST] else []) ++
  (if b.NO_SPI_I2C then []
   else [c.USRP2_CTRL_ID_TRANSACT_ME_SOME_SPI_BRO,
         c.USRP2_CTRL_ID_DO_AN_I2C_READ_FOR_ME_BRO,
         c.USRP2_CTRL_ID_WRITE_THESE_I2C_VALUES_BRO]) ++
  [c.USRP2_CTRL_ID_GET_THIS_REGISTER_FOR_ME_BRO, c.USRP2_CTRL_ID_HOLLER_AT_ME_BRO]

/-- The id of the addressing response of build `b`. -/
def addressing_response (b : Build) (c : Consts) : Nat :=
  if b.UMTRX then c.UMTRX_CTRL_ID_RESPONSE else c.USRP2_CTRL_ID_WAZZUP_DUDE

/-- The event is a call of `send_udp_pkt`. -/
def Event.is_send : Event → Bool
  | .send_udp_pkt _ _ _ _ => true
  | _ => false

/-- The event is a register, SPI or I2C access or an access to `fw_regs`. -/
def Event.is_access : Event → Bool
  | .spi_transact _ _ _ _ _ => true
  | .i2c_read _ _ => true
  | .i2c_write _ _ _ => true
  | .peek32 _ => true
  | .peek16 _ => true
  | .poke32 _ _ => true
  | .poke16 _ _ => true
  | .fw_regs_read _ => true
  | .fw_regs_write _ _ => true
  | _ => false

/-- The event is an assignment to a member of a receive-control register block. -/
def Event.is_rx_ctrl_write : Event → Bool
  | .rx_ctrl_write _ _ _ => true
  | _ => false

/-- The event is a call of `setup_framer`. -/
def Event.is_setup_framer : Event → Bool
  | .setup_framer _ _ _ _ _ => true
  | _ => false

/-- The UDP port whose `case` in the first switch writes the given register block. -/
def rx_port (c : Consts) : RxCtrlReg → Nat
  | .sr_rx_ctrl0 => c.USRP2_UDP_RX_DSP0_PORT
  | .sr_rx_ctrl1 => c.USRP2_UDP_RX_DSP1_PORT
  | .sr_rx_ctrl0_2 => c.USRP2_UDP_RX_DSP0_2_PORT
  | .sr_rx_ctrl1_2 => c.USRP2_UDP_RX_DSP1_2_PORT

/-- The four case labels of either switch of `handle_udp_data_packet`, in source order. -/
def rx_ports (c : Consts) : List Nat :=
  [c.USRP2_UDP_RX_DSP0_PORT, c.USRP2_UDP_RX_DSP1_PORT,
   c.USRP2_UDP_RX_DSP0_2_PORT, c.USRP2_UDP_RX_DSP1_2_PORT]

/-! ## Concrete inputs used to evaluate the handlers -/

/-- A concrete assignment of the header constants: ASCII letters for the ids, a lower-case
letter for each request and the upper-case letter for its response. -/
def sample_consts : Consts where
  USRP2_FW_COMPAT_NUM := 11
  sizeof_usrp2_ctrl_data_t := 36
  USRP2_UDP_CTRL_PORT := 49152
  USRP2_UDP_RX_DSP0_PORT := 49156
  USRP2_UDP_RX_DSP1_PORT := 49158
  USRP2_UDP_RX_DSP0_2_PORT := 49160
  USRP2_UDP_RX_DSP1_2_PORT := 49162
  USRP2_CTRL_ID_HUH_WHAT := 32
  UMTRX_CTRL_ID_REQUEST := 117
  UMTRX_CTRL_ID_RESPONSE := 85
  UMTRX_CTRL_ID_ZPU_REQUEST := 122
  UMTRX_CTRL_ID_ZPU_RESPONSE := 90
  USRP2_CTRL_ID_WAZZUP_BRO := 97
  USRP2_CTRL_ID_WAZZUP_DUDE := 65
  USRP2_CTRL_ID_TRANSACT_ME_SOME_SPI_BRO := 115
  USRP2_CTRL_ID_OMG_TRANSACTED_SPI_DUDE := 83
  USRP2_CTRL_ID_DO_AN_I2C_READ_FOR_ME_BRO := 105
  USRP2_CTRL_ID_HERES_THE_I2C_DATA_DUDE := 73
  USRP2_CTRL_ID_WRITE_THESE_I2C_VALUES_BRO := 104
  USRP2_CTRL_ID_COOL_IM_DONE_I2C_WRITE_DUDE := 72
  USRP2_CTRL_ID_GET_THIS_REGISTER_FOR_ME_BRO := 114
  USRP2_CTRL_ID_OMG_GOT_REGISTER_SO_BAD_DUDE := 82
  USRP2_CTRL_ID_HOLLER_AT_ME_BRO := 108
  USRP2_CTRL_ID_HOLLER_BACK_DUDE := 76
  UMTRX_ZPU_REQUEST_GET_VCTCXO_DAC := 1
  UMTRX_ZPU_REQUEST_SET_VCTCXO_DAC := 2
  USRP2_REG_ACTION_FPGA_PEEK32 := 1
  USRP2_REG_ACTION_FPGA_PEEK16 := 2
  USRP2_REG_ACTION_FPGA_POKE32 := 3
  USRP2_REG_ACTION_FPGA_POKE16 := 4
  USRP2_REG_ACTION_FW_PEEK32 := 5
  USRP2_REG_ACTION_FW_POKE32 := 6
  USRP2_CLK_EDGE_RISE := 114
  SPI_TXONLY := 0
  SPI_TXRX := 1
  SPIF_PUSH_FALL := 1
  SPIF_PUSH_RISE := 0
  SPIF_LATCH_RISE := 0
  SPIF_LATCH_FALL := 2

/-- The build with SPI and I2C and without the UMTRX additions. -/
def sample_build : Build := ⟨false, false⟩

/-- An environment in which every call returns a fixed value. -/
def sample_hw : Hw where
  get_ip_addr := 3232235778
  ethernet_mac_addr := 2
  arp_cache_lookup_mac := fun ip _ => ip + 1000
  spi_transact := fun _ _ data _ _ => data
  i2c_read := fun _ n _ => List.replicate n 0
  read32 := fun _ => 0
  read16 := fun _ => 0
  get_vctcxo_dac := 0
  beyond_fw_regs := fun _ => 0

/-- A control message with every member zero. -/
def zero_ctrl_data : usrp2_ctrl_data_t :=
  ⟨0, 0, 0, ⟨0, ⟨0, 0, 0, 0, 0, 0⟩, ⟨0, 0, []⟩, ⟨0, 0, 0⟩, ⟨0, 0⟩, ⟨0⟩⟩⟩

/-- The firmware registers all zero. -/
def zero_fw_regs : FwRegs := fun _ => 0

/-- The host endpoint 10.0.0.5:45101. -/
def sample_src : socket_address := ⟨167772165, 45101⟩

/-- The device endpoint 10.0.0.2 on the control port. -/
def sample_dst : socket_address := ⟨167772162, 49152⟩

/-- The four receive-control register blocks in some streaming state. -/
def sample_regs : RxCtrlRegs :=
  ⟨⟨1, 2, 3⟩, ⟨4, 5, 6⟩, ⟨7, 8, 9⟩, ⟨10, 11, 12⟩⟩

/-- The case labels of the inner `switch(ctrl_data_in->data.reg_args.action)`, in source
order. -/
def reg_actions (c : Consts) : List Nat :=
  [c.USRP2_REG_ACTION_FPGA_PEEK32, c.USRP2_REG_ACTION_FPGA_PEEK16,
   c.USRP2_REG_ACTION_FPGA_POKE32, c.USRP2_REG_ACTION_FPGA_POKE16,
   c.USRP2_REG_ACTION_FW_PEEK32, c.USRP2_REG_ACTION_FW_POKE32]

/-- A register request of protocol version 11 with the given `reg_args`. -/
def reg_request (addr data action : Nat) : usrp2_ctrl_data_t :=
  { zero_ctrl_data with proto_ver := 11, id := 114, data.reg_args := ⟨addr, data, action⟩ }

end Fw

namespace B100

/-! ## Host: constants, environment, the async message queue -/

/-- Constants and type sizes from headers outside `io_impl.cpp` (`b100_regs.hpp`,
`vrt_if_packet.hpp`, `metadata.hpp`) and of the host platform. -/
structure HostConsts where
  B100_TX_ASYNC_SID : Nat
  PACKET_TYPE_DATA : Nat
  EVENT_CODE_UNDERFLOW : Nat
  EVENT_CODE_UNDERFLOW_IN_PACKET : Nat
  EVENT_CODE_SEQ_ERROR : Nat
  EVENT_CODE_SEQ_ERROR_IN_BURST : Nat
  EVENT_CODE_TIME_ERROR : Nat
  /-- The constant `vrt::max_if_hdr_words32`. -/
  max_if_hdr_words32 : Nat
  /-- The value of `sizeof(vrt::if_packet_info_t().tlr)`. -/
  sizeof_tlr : Nat
  /-- The value of `sizeof(vrt::if_packet_info_t().cid)`. -/
  sizeof_cid : Nat
  /-- The value of `sizeof(boost::uint32_t)`. -/
  sizeof_uint32 : Nat
  /-- The width of `size_t` in bits. -/
  size_t_bits : Nat
  /-- The width of `time_t` in bits. -/
  time_t_bits : Nat
  deriving DecidableEq, Repr

/-- The members of `vrt::if_packet_info_t` that `io_impl.cpp` reads or writes. -/
structure if_packet_info_t where
  packet_type : Nat
  num_packet_words32 : Nat
  sid : Nat
  has_tsi : Bool
  tsi : Nat
  has_tsf : Bool
  tsf : Nat
  deriving DecidableEq, Repr

/-- The arguments given to the constructor `time_spec_t(full_secs, tick_count, tick_rate)`;
the tick rate is a `double`, kept here as a rational number. -/
structure time_spec_t where
  full_secs : Int
  tick_count : Nat
  tick_rate : ℚ
  deriving DecidableEq, Repr

/-- The record `async_metadata_t`. -/
structure async_metadata_t where
  channel : Nat
  has_time_spec : Bool
  time_spec : time_spec_t
  event_code : Nat
  deriving DecidableEq, Repr

/-- A `managed_recv_buffer`: its size in bytes and its memory, read as 32-bit words. -/
structure managed_recv_buffer where
  size : Nat
  words : List Nat
  deriving DecidableEq, Repr

/-- How a call of `vrt::if_hdr_unpack_le(vrt_hdr, if_packet_info)` ends: it returns, or it
throws a `std::exception` with a message; either way `if_packet_info`, passed by
reference, holds some content afterwards. -/
inductive Unpack where
  | returned (info : if_packet_info_t)
  | threw (what : String) (info : if_packet_info_t)
  deriving DecidableEq, Repr

/-- The content of `if_packet_info` after the call. -/
def Unpack.info : Unpack → if_packet_info_t
  | .returned i => i
  | .threw _ i => i

/-- What is written to `UHD_MSG`. -/
inductive Msg where
  | error (text : String)
  | fastpath (text : String)
  deriving DecidableEq, Repr

/-- What the calls outside `io_impl.cpp` return. -/
structure Env where
  /-- The call `vrt::if_hdr_unpack_le(vrt_hdr, if_packet_info)`. -/
  if_hdr_unpack_le : List Nat → if_packet_info_t → Unpack
  /-- The call `sph::get_context_code(vrt_hdr, if_packet_info)`. -/
  get_context_code : List Nat → if_packet_info_t → Nat
  /-- The call `_clock_ctrl->get_fpga_clock_rate()`. -/
  get_fpga_clock_rate : ℚ
  /-- The call `convert::get_bytes_per_item(format)`; `none` when it throws. -/
  get_bytes_per_item : String → Option Nat
  /-- The expression `unsigned(args.args.cast<double>("scalar", 0x400))` for a value found
  under the key; `none` when the cast throws. -/
  cast_scalar : String → Option Nat
  /-- Whether `my_streamer->set_converter(id)` returns for this input and output format. -/
  has_converter : String → String → Bool
  /-- Whether `_rx_dsps[dsp]->set_format(format, scalar)` returns for this format. -/
  rx_dsp_accepts_format : String → Bool

/-- The class `bounded_buffer<elem_type>`: the capacity given to its constructor and the
queued elements, oldest first. -/
structure bounded_buffer (α : Type) where
  capacity : Nat
  buffer : List α
  deriving DecidableEq, Repr

/-- The constructor `bounded_buffer(capacity)`: an empty queue. -/
def bounded_buffer.make {α : Type} (capacity : Nat) : bounded_buffer α := ⟨capacity, []⟩

/-- Modelled from the spec: `bounded_buffer::push_with_pop_on_full` (the class is defined
in `uhd/transport/bounded_buffer.hpp`, outside the translated files).  The spec says that
push never blocks and drops the oldest queued event to admit the new one when the queue
is at capacity. -/
def bounded_buffer.push_with_pop_on_full {α : Type} (q : bounded_buffer α) (elem : α) :
    bounded_buffer α :=
  if q.capacity ≤ q.buffer.length then { q with buffer := q.buffer.tail ++ [elem] }
  else { q with buffer := q.buffer ++ [elem] }

/-- Modelled from the spec: `bounded_buffer::pop_with_timed_wait` (outside the translated
files), without the waiting: the oldest queued event and the rest of the queue, or `none`
for the timeout on an empty queue. -/
def bounded_buffer.pop_with_timed_wait {α : Type} (q : bounded_buffer α) :
    Option (α × bounded_buffer α) :=
  match q.buffer with
  | [] => none
  | x :: rest => some (x, { q with buffer := rest })

/-- The struct `b100_impl::io_impl` as far as the async messages go; its constructor
initialises `async_msg_fifo(100)`. -/
structure io_impl where
  async_msg_fifo : bounded_buffer async_metadata_t
  deriving DecidableEq, Repr

/-- The constructor `io_impl(void): async_msg_fifo(100)`. -/
def io_impl.make : io_impl := ⟨bounded_buffer.make 100⟩

/-- The conversion `size_t(x)`. -/
def to_size_t (k : HostConsts) (x : Nat) : Nat := x % 2 ^ k.size_t_bits

/-- The conversion `time_t(x)` to a signed integer of `time_t_bits` bits. -/
def to_time_t (k : HostConsts) (x : Nat) : Int :=
  let m := x % 2 ^ k.time_t_bits
  if 2 * m < 2 ^ k.time_t_bits then (m : Int) else (m : Int) - 2 ^ k.time_t_bits

/-! ## `handle_async_message` -/

/-- The `UHD_MSG(fastpath)` output that follows the push. -/
def fastpath_msgs (k : HostConsts) (event_code : Nat) : List Msg :=
  if event_code &&& (k.EVENT_CODE_UNDERFLOW ||| k.EVENT_CODE_UNDERFLOW_IN_PACKET) ≠ 0 then
    [Msg.fastpath "U"]
  else if event_code &&& (k.EVENT_CODE_SEQ_ERROR ||| k.EVENT_CODE_SEQ_ERROR_IN_BURST) ≠ 0 then
    [Msg.fastpath "S"]
  else if event_code &&& k.EVENT_CODE_TIME_ERROR ≠ 0 then [Msg.fastpath "L"]
  else []

/-- The record filled in by the `if` branch of `handle_async_message`. -/
def async_metadata_of (k : HostConsts) (env : Env) (vrt_hdr : List Nat)
    (if_packet_info : if_packet_info_t) : async_metadata_t where
  channel := 0
  has_time_spec := if_packet_info.has_tsi && if_packet_info.has_tsf
  time_spec :=
    ⟨to_time_t k if_packet_info.tsi, to_size_t k if_packet_info.tsf, env.get_fpga_clock_rate⟩
  event_code := env.get_context_code vrt_hdr if_packet_info

/-- The condition of the `if` in `handle_async_message`. -/
def is_tx_async_message (k : HostConsts) (if_packet_info : if_packet_info_t) : Bool :=
  if_packet_info.sid == k.B100_TX_ASYNC_SID && if_packet_info.packet_type != k.PACKET_TYPE_DATA

/-- The function `b100_impl::handle_async_message(rbuf)`.  `info0` is the content of the
uninitialised local `if_packet_info` on entry.  The one call that can throw is inside the
`try` block and its `std::exception` is caught, so the function always returns: the
result is `_io_impl` after the call and the messages written. -/
def handle_async_message (k : HostConsts) (env : Env) (info0 : if_packet_info_t)
    (io : io_impl) (rbuf : managed_recv_buffer) : io_impl × List Msg :=
  let if_packet_info := { info0 with num_packet_words32 := rbuf.size / k.sizeof_uint32 }
  let vrt_hdr := rbuf.words
  let unpacked := env.if_hdr_unpack_le vrt_hdr if_packet_info
  let caught : List Msg :=
    match unpacked with
    | .returned _ => []
    | .threw what _ => [Msg.error ("Error (handle_async_message): " ++ what)]
  let if_packet_info := unpacked.info
  if is_tx_async_message k if_packet_info then
    -- fill in the async metadata
    let metadata := async_metadata_of k env vrt_hdr if_packet_info
    ({ io with async_msg_fifo := io.async_msg_fifo.push_with_pop_on_full metadata },
      caught ++ fastpath_msgs k metadata.event_code)
  else (io, caught ++ [Msg.error "Unknown async packet"])

/-- The function `b100_impl::recv_async_msg(async_metadata, timeout)`, without the waiting:
the popped record, if any, and `_io_impl` after the call. -/
def recv_async_msg (io : io_impl) : Option async_metadata_t × io_impl :=
  match io.async_msg_fifo.pop_with_timed_wait with
  | none => (none, io)
  | some (m, q) => (some m, { io with async_msg_fifo := q })

/-- One call on the async queue from outside: the control thread delivers a buffer to
`handle_async_message`, or the application calls `recv_async_msg`. -/
inductive IoCall where
  | handle_async_message (info0 : if_packet_info_t) (rbuf : managed_recv_buffer)
  | recv_async_msg
  deriving DecidableEq, Repr

/-- The state `_io_impl` after one call. -/
def run_io_call (k : HostConsts) (env : Env) (io : io_impl) : IoCall → io_impl
  | .handle_async_message info0 rbuf => (handle_async_message k env info0 io rbuf).1
  | .recv_async_msg => (recv_async_msg io).2

/-- The state `_io_impl` after a sequence of calls, made one after the other. -/
def run_io_calls (k : HostConsts) (env : Env) (io : io_impl) (calls : List IoCall) : io_impl :=
  calls.foldl (run_io_call k env) io

/-! ## `get_rx_stream` -/

/-- The struct `uhd::stream_args_t`. -/
structure stream_args_t where
  cpu_format : String
  otw_format : String
  /-- The `device_addr_t` dictionary `args`, as key and value pairs. -/
  args : List (String × String)
  channels : List Nat
  deriving DecidableEq, Repr

/-- The call `args.has_key(key)` on a dictionary. -/
def has_key (args : List (String × String)) (key : String) : Bool :=
  args.any fun kv => kv.1 == key

/-- The value stored under a key of a dictionary, if any. -/
def get_key (args : List (String × String)) (key : String) : Option String :=
  (args.find? fun kv => kv.1 == key).map Prod.snd

/-- The state of `b100_impl` that the stream functions of `io_impl.cpp` use.  A streamer
object is named by a number; a weak pointer is `none` when it is empty. -/
structure b100_impl where
  /-- The value of `_rx_dsps.size()`. -/
  num_rx_dsps : Nat
  _rx_streamers : List (Option Nat)
  _tx_streamers : List (Option Nat)
  /-- The number that names the next object made by `boost::make_shared`. -/
  next_streamer : Nat
  deriving DecidableEq, Repr

/-- The calls that `get_rx_stream` makes on the streamer, on the DSP cores and on itself. -/
inductive HostEvent where
  | make_recv_packet_streamer (streamer spp : Nat)
  | resize (streamer n : Nat)
  | set_vrt_unpacker (streamer : Nat)
  | set_converter (streamer : Nat) (input_format : String) (num_inputs : Nat)
      (output_format : String) (num_outputs : Nat)
  | set_nsamps_per_packet (dsp spp : Nat)
  | clear (dsp : Nat)
  | set_format (dsp : Nat) (format : String) (scalar : Nat)
  | set_xport_chan_get_buff (streamer chan_i dsp : Nat) (flush : Bool)
  | set_overflow_handler (streamer chan_i dsp : Nat)
  | update_rates
  deriving DecidableEq, Repr

/-- The ways in which `get_rx_stream` ends without returning a streamer. -/
inductive Fault where
  /-- The cast of the `scalar` argument throws. -/
  | bad_scalar (value : String)
  /-- The call `convert::get_bytes_per_item` throws. -/
  | unknown_format (format : String)
  /-- Integer division by a size of zero. -/
  | division_by_zero
  /-- The call `set_converter` throws. -/
  | no_converter (input_format output_format : String)
  /-- The call `set_format` throws. -/
  | format_rejected (format : String)
  /-- An index past the end of `_rx_dsps` or `_rx_streamers`. -/
  | out_of_range (dsp : Nat)
  deriving DecidableEq, Repr

/-- A run of `get_rx_stream`: the state and the calls made up to the point where it ended,
and how it ended. -/
structure RxRun where
  self : b100_impl
  events : List HostEvent
  result : Except Fault Nat

/-- Addition in `size_t`. -/
def size_t_add (k : HostConsts) (a b : Nat) : Nat := (a + b) % 2 ^ k.size_t_bits

/-- Multiplication in `size_t`. -/
def size_t_mul (k : HostConsts) (a b : Nat) : Nat := (a * b) % 2 ^ k.size_t_bits

/-- Subtraction in `size_t`, which wraps around below zero. -/
def size_t_sub (k : HostConsts) (a b : Nat) : Nat :=
  (((a : Int) - (b : Int)) % ((2 : Int) ^ k.size_t_bits)).toNat

/-- The constant `hdr_size` of `get_rx_stream`:
`0 + vrt::max_if_hdr_words32*sizeof(boost::uint32_t) + sizeof(tlr) - sizeof(cid)`. -/
def rx_hdr_size (k : HostConsts) : Nat :=
  size_t_sub k
    (size_t_add k (size_t_add k 0 (size_t_mul k k.max_if_hdr_words32 k.sizeof_uint32))
      k.sizeof_tlr)
    k.sizeof_cid

/-- The constant `bpp = 2048 - hdr_size` of `get_rx_stream`. -/
def rx_bpp (k : HostConsts) : Nat := size_t_sub k 2048 (rx_hdr_size k)

/-- The loop `for (chan_i = 0; chan_i < args.channels.size(); chan_i++)` of
`get_rx_stream`, from channel number `chan_i` on, over the remaining channels. -/
def bind_rx_channels (env : Env) (streamer spp : Nat) (otw_format : String)
    (sc8_scalar : Nat) (noclear : Bool) :
    Nat → List Nat → b100_impl → List HostEvent → b100_impl × List HostEvent × Option Fault
  | _, [], self, ev => (self, ev, none)
  | chan_i, dsp :: rest, self, ev =>
    if ¬ dsp < self.num_rx_dsps then (self, ev, some (.out_of_range dsp))
    else
      let ev := ev ++ [HostEvent.set_nsamps_per_packet dsp spp]
      let ev := if noclear then ev else ev ++ [HostEvent.clear dsp]
      if ¬ env.rx_dsp_accepts_format otw_format then
        (self, ev, some (.format_rejected otw_format))
      else
        let ev := ev ++ [HostEvent.set_format dsp otw_format sc8_scalar,
          HostEvent.set_xport_chan_get_buff streamer chan_i dsp true,
          HostEvent.set_overflow_handler streamer chan_i dsp]
        if ¬ dsp < self._rx_streamers.length then (self, ev, some (.out_of_range dsp))
        else
          -- store weak pointer
          let self := { self with _rx_streamers := self._rx_streamers.set dsp (some streamer) }
          bind_rx_channels env streamer spp otw_format sc8_scalar noclear (chan_i + 1) rest
            self ev

/-- The assignment `args.otw_format = args.otw_format.empty()? "sc16" : args.otw_format`. -/
def default_otw_format (args_ : stream_args_t) : String :=
  if args_.otw_format = "" then "sc16" else args_.otw_format

/-- The assignment
`args.channels = args.channels.empty()? std::vector<size_t>(1, 0) : args.channels`. -/
def default_channels (args_ : stream_args_t) : List Nat :=
  if args_.channels = [] then [0] else args_.channels

/-- The function `b100_impl::get_rx_stream(args_)`. -/
def get_rx_stream (k : HostConsts) (env : Env) (self : b100_impl) (args_ : stream_args_t) :
    RxRun :=
  -- setup defaults for unspecified values
  let otw_format := default_otw_format args_
  let channels := default_channels args_
  let scalar : Except Fault Nat :=
    match get_key args_.args "scalar" with
    | none => .ok 0x400
    | some v =>
      match env.cast_scalar v with
      | none => .error (.bad_scalar v)
      | some n => .ok n
  match scalar with
  | .error f => ⟨self, [], .error f⟩
  | .ok sc8_scalar =>
    -- calculate packet size
    let bpp := rx_bpp k
    match env.get_bytes_per_item otw_format with
    | none => ⟨self, [], .error (.unknown_format otw_format)⟩
    | some 0 => ⟨self, [], .error .division_by_zero⟩
    | some (b + 1) =>
      let spp := bpp / (b + 1)
      -- make the new streamer given the samples per packet
      let my_streamer := self.next_streamer
      let self := { self with next_streamer := self.next_streamer + 1 }
      let ev := [HostEvent.make_recv_packet_streamer my_streamer spp,
        HostEvent.resize my_streamer channels.length,
        HostEvent.set_vrt_unpacker my_streamer]
      -- set the converter
      let input_format := otw_format ++ "_item32_le"
      if ¬ env.has_converter input_format args_.cpu_format then
        ⟨self, ev, .error (.no_converter input_format args_.cpu_format)⟩
      else
        let ev := ev ++ [HostEvent.set_converter my_streamer input_format 1 args_.cpu_format 1]
        -- bind callbacks for the handler
        match bind_rx_channels env my_streamer spp otw_format sc8_scalar
            (has_key args_.args "noclear") 0 channels self ev with
        | (self, ev, some f) => ⟨self, ev, .error f⟩
        | (self, ev, none) =>
          -- sets all tick and samp rates on this streamer
          ⟨self, ev ++ [HostEvent.update_rates], .ok my_streamer⟩

/-! ## Concrete inputs used to evaluate the host functions -/

/-- A concrete assignment of the host constants, for a 64-bit host. -/
def sample_host_consts : HostConsts where
  B100_TX_ASYNC_SID := 1
  PACKET_TYPE_DATA := 0
  EVENT_CODE_UNDERFLOW := 2
  EVENT_CODE_UNDERFLOW_IN_PACKET := 32
  EVENT_CODE_SEQ_ERROR := 4
  EVENT_CODE_SEQ_ERROR_IN_BURST := 16
  EVENT_CODE_TIME_ERROR := 8
  max_if_hdr_words32 := 16
  sizeof_tlr := 4
  sizeof_cid := 8
  sizeof_uint32 := 4
  size_t_bits := 64
  time_t_bits := 64

/-- An environment whose header unpacker reads the packet type from word 0, the stream id
from word 1 and the two time stamps from words 2 and 3, and throws on fewer than four
words; the item sizes are those of `sc16` and `sc8`. -/
def sample_env : Env where
  if_hdr_unpack_le := fun words info =>
    match words with
    | t :: sid :: tsi :: tsf :: _ =>
      .returned { info with packet_type := t, sid := sid, has_tsi := true, tsi := tsi,
                            has_tsf := true, tsf := tsf }
    | _ => .threw "bad vrt header" info
  get_context_code := fun words _ => words.getD 4 0 % 256
  get_fpga_clock_rate := 64000000
  get_bytes_per_item := fun f => if f = "sc16" then some 4 else if f = "sc8" then some 2 else none
  cast_scalar := fun _ => some 1024
  has_converter := fun _ _ => true
  rx_dsp_accepts_format := fun f => f = "sc16" || f = "sc8"

/-- The content of an uninitialised `if_packet_info_t`, here all zero. -/
def zero_info : if_packet_info_t := ⟨0, 0, 0, false, 0, false, 0⟩

/-- A device with two receive DSPs and no streamer yet. -/
def sample_impl : b100_impl := ⟨2, [none, none], [none], 0⟩

/-! ## `get_tx_stream` -/

/-- The calls that `get_tx_stream` makes on the streamer, on the TX DSP core and on itself. -/
inductive TxEvent where
  | make_send_packet_streamer (streamer spp : Nat)
  | resize (streamer n : Nat)
  | set_vrt_packer (streamer : Nat)
  | set_converter (streamer : Nat) (input_format : String) (num_inputs : Nat)
      (output_format : String) (num_outputs : Nat)
  | clear
  | set_underflow_policy (policy : String)
  | set_xport_chan_get_buff (streamer chan_i : Nat)
  | update_rates
  deriving DecidableEq, Repr

/-- The ways in which `get_tx_stream` ends without returning a streamer. -/
inductive TxFault where
  /-- The `uhd::value_error` thrown by the check `args.otw_format != "sc16"`. -/
  | value_error (what : String)
  /-- The call `convert::get_bytes_per_item` throws. -/
  | unknown_format (format : String)
  /-- Integer division by a size of zero. -/
  | division_by_zero
  /-- The call `set_converter` throws. -/
  | no_converter (input_format output_format : String)
  /-- The check `UHD_ASSERT_THROW(dsp == 0)` fails. -/
  | assertion_failed (dsp : Nat)
  /-- The call `set_underflow_policy` throws. -/
  | policy_rejected (policy : String)
  /-- An index past the end of `_tx_streamers`. -/
  | out_of_range (dsp : Nat)
  deriving DecidableEq, Repr

/-- A run of `get_tx_stream`: the state and the calls made up to the point where it ended,
and how it ended. -/
structure TxRun where
  self : b100_impl
  events : List TxEvent
  result : Except TxFault Nat

/-- The constant `hdr_size` of `get_tx_stream`:
`0 + vrt::max_if_hdr_words32*sizeof(boost::uint32_t) - sizeof(cid)`. -/
def tx_hdr_size (k : HostConsts) : Nat :=
  size_t_sub k (size_t_add k 0 (size_t_mul k k.max_if_hdr_words32 k.sizeof_uint32))
    k.sizeof_cid

/-- The constant `bpp = 2048 - hdr_size` of `get_tx_stream`. -/
def tx_bpp (k : HostConsts) : Nat := size_t_sub k 2048 (tx_hdr_size k)

/-- The loop `for (chan_i = 0; chan_i < args.channels.size(); chan_i++)` of
`get_tx_stream`, from channel number `chan_i` on, over the remaining channels.
`accepts_policy` tells whether `_tx_dsp->set_underflow_policy(policy)` returns. -/
def bind_tx_channels (accepts_policy : String → Bool) (streamer : Nat)
    (args : List (String × String)) :
    Nat → List Nat → b100_impl → List TxEvent → b100_impl × List TxEvent × Option TxFault
  | _, [], self, ev => (self, ev, none)
  | chan_i, dsp :: rest, self, ev =>
    -- always 0
    if dsp ≠ 0 then (self, ev, some (.assertion_failed dsp))
    else
      let ev := if has_key args "noclear" then ev else ev ++ [TxEvent.clear]
      let policy : Option String :=
        if has_key args "underflow_policy" then get_key args "underflow_policy" else none
      match policy with
      | some p =>
        if ¬ accepts_policy p then (self, ev, some (.policy_rejected p))
        else
          let ev := ev ++ [TxEvent.set_underflow_policy p,
            TxEvent.set_xport_chan_get_buff streamer chan_i]
          if ¬ dsp < self._tx_streamers.length then (self, ev, some (.out_of_range dsp))
          else
            -- store weak pointer
            let self := { self with _tx_streamers := self._tx_streamers.set dsp (some streamer) }
            bind_tx_channels accepts_policy streamer args (chan_i + 1) rest self ev
      | none =>
        let ev := ev ++ [TxEvent.set_xport_chan_get_buff streamer chan_i]
        if ¬ dsp < self._tx_streamers.length then (self, ev, some (.out_of_range dsp))
        else
          -- store weak pointer
          let self := { self with _tx_streamers := self._tx_streamers.set dsp (some streamer) }
          bind_tx_channels accepts_policy streamer args (chan_i + 1) rest self ev

/-- The function `b100_impl::get_tx_stream(args_)`.  `accepts_policy` tells whether
`_tx_dsp->set_underflow_policy(policy)` returns. -/
def get_tx_stream (k : HostConsts) (env : Env) (accepts_policy : String → Bool)
    (self : b100_impl) (args_ : stream_args_t) : TxRun :=
  -- setup defaults for unspecified values
  let otw_format := default_otw_format args_
  let channels := default_channels args_
  if otw_format ≠ "sc16" then
    ⟨self, [], .error (.value_error
      ("USRP TX cannot handle requested wire format: " ++ otw_format))⟩
  else
    -- calculate packet size
    let bpp := tx_bpp k
    match env.get_bytes_per_item otw_format with
    | none => ⟨self, [], .error (.unknown_format otw_format)⟩
    | some 0 => ⟨self, [], .error .division_by_zero⟩
    | some (b + 1) =>
      let spp := bpp / (b + 1)
      -- make the new streamer given the samples per packet
      let my_streamer := self.next_streamer
      let self := { self with next_streamer := self.next_streamer + 1 }
      let ev := [TxEvent.make_send_packet_streamer my_streamer spp,
        TxEvent.resize my_streamer channels.length,
        TxEvent.set_vrt_packer my_streamer]
      -- set the converter
      let output_format := otw_format ++ "_item32_le"
      if ¬ env.has_converter args_.cpu_format output_format then
        ⟨self, ev, .error (.no_converter args_.cpu_format output_format)⟩
      else
        let ev := ev ++ [TxEvent.set_converter my_streamer args_.cpu_format 1 output_format 1]
        -- bind callbacks for the handler
        match bind_tx_channels accepts_policy my_streamer args_.args 0 channels self ev with
        | (self, ev, some f) => ⟨self, ev, .error f⟩
        | (self, ev, none) =>
          -- sets all tick and samp rates on this streamer
          ⟨self, ev ++ [TxEvent.update_rates], .ok my_streamer⟩

/-! ## `update_tick_rate`, `update_rx_samp_rate`, `update_tx_samp_rate` -/

/-- The rates held by a packet streamer object (`sph::recv_packet_streamer` or
`sph::send_packet_streamer`); a `double` is kept as a rational number. -/
structure streamer_t where
  tick_rate : ℚ
  samp_rate : ℚ
  scale_factor : ℚ
  deriving DecidableEq, Repr

/-- The streamer objects by the number that names them; `none` for an object that has
been destroyed (no strong reference is left), whose weak pointers have expired. -/
abbrev Streamers := Nat → Option streamer_t

/-- The expression `boost::dynamic_pointer_cast<...>(weak.lock())`: the object, when the
weak pointer is not empty and has not expired.  The only stores into `_rx_streamers` and
`_tx_streamers` are those of `get_rx_stream` and `get_tx_stream`, which store a
`recv_packet_streamer` and a `send_packet_streamer`, so the cast of a live object does
not fail. -/
def lock (objs : Streamers) (weak : Option Nat) : Option (Nat × streamer_t) :=
  match weak with
  | none => none
  | some id =>
    match objs id with
    | none => none
    | some s => some (id, s)

/-- The assignment `my_streamer->set_tick_rate(rate)` on an object. -/
def with_tick_rate (rate : ℚ) (s : streamer_t) : streamer_t := { s with tick_rate := rate }

/-- One of the two `for` loops of `update_tick_rate`, over the weak pointers that are
left: `if (my_streamer.get() == NULL) continue; my_streamer->set_tick_rate(rate);`. -/
def update_tick_rate_loop (rate : ℚ) : List (Option Nat) → Streamers → Streamers
  | [], objs => objs
  | weak :: rest, objs =>
    match lock objs weak with
    | none => update_tick_rate_loop rate rest objs
    | some (id, s) =>
      update_tick_rate_loop rate rest (Function.update objs id (some (with_tick_rate rate s)))

/-- The function `b100_impl::update_tick_rate(rate)`: the loop over `_rx_streamers`, then
the loop over `_tx_streamers`. -/
def update_tick_rate (self : b100_impl) (objs : Streamers) (rate : ℚ) : Streamers :=
  update_tick_rate_loop rate self._tx_streamers
    (update_tick_rate_loop rate self._rx_streamers objs)

/-- The function `b100_impl::update_rx_samp_rate(dspno, rate)`.  `get_scaling_adjustment`
gives the result of `_rx_dsps[dspno]->get_scaling_adjustment()`.  The result is `none`
when an index is past the end of `_rx_streamers` or `_rx_dsps`, which C++ leaves
undefined. -/
def update_rx_samp_rate (self : b100_impl) (get_scaling_adjustment : Nat → ℚ)
    (objs : Streamers) (dspno : Nat) (rate : ℚ) : Option Streamers :=
  if h : dspno < self._rx_streamers.length then
    match lock objs (self._rx_streamers.get ⟨dspno, h⟩) with
    | none => some objs
    | some (id, s) =>
      if dspno < self.num_rx_dsps then
        let s := { s with samp_rate := rate }
        let adj := get_scaling_adjustment dspno
        some (Function.update objs id (some { s with scale_factor := adj }))
      else none
  else none

/-- The function `b100_impl::update_tx_samp_rate(dspno, rate)`.  The result is `none` when
the index is past the end of `_tx_streamers`, which C++ leaves undefined. -/
def update_tx_samp_rate (self : b100_impl) (objs : Streamers) (dspno : Nat) (rate : ℚ) :
    Option Streamers :=
  if h : dspno < self._tx_streamers.length then
    match lock objs (self._tx_streamers.get ⟨dspno, h⟩) with
    | none => some objs
    | some (id, s) => some (Function.update objs id (some { s with samp_rate := rate }))
  else none

/-- A device whose receive DSP 0 and transmit DSP point to streamer 0, which is alive, and
whose receive DSP 1 points to streamer 1, which has been destroyed. -/
def sample_impl_streaming : b100_impl := ⟨2, [some 0, some 1], [some 0], 2⟩

/-- The streamer objects that go with `sample_impl_streaming`: only object 0 is alive. -/
def sample_streamers : Streamers := fun id => if id = 0 then some ⟨1, 2, 3⟩ else none

/-- No streamer object is alive. -/
def no_streamers : Streamers := fun _ => none

end B100

/-! # Theorems -/

namespace Fw

/-! ## Helper lemmas: conversions and the switch -/

theorem to_uint32_of_nonneg (x : Int) (h0 : 0 ≤ x) (h1 : x < 2 ^ 31) :
    (to_uint32 x : Int) = x := by
  unfold to_uint32
  have h2 : (2 : Int) ^ 32 = 4294967296 := by norm_num
  have h3 : (2 : Int) ^ 31 = 2147483648 := by norm_num
  rw [h2]
  rw [h3] at h1
  omega

theorem to_uint32_le_self (x : Int) (h0 : 0 ≤ x) : (to_uint32 x : Int) ≤ x := by
  unfold to_uint32
  have h2 : (2 : Int) ^ 32 = 4294967296 := by norm_num
  rw [h2]
  omega

theorem final_id_short (b : Build) (c : Consts) (req : usrp2_ctrl_data_t) (payload_len : Int)
    (h0 : 0 ≤ payload_len) (hshort : payload_len < c.sizeof_usrp2_ctrl_data_t) :
    final_id b c req payload_len = c.USRP2_CTRL_ID_HUH_WHAT := by
  have h := to_uint32_le_self payload_len h0
  have hlt : to_uint32 payload_len < c.sizeof_usrp2_ctrl_data_t := by omega
  simp [final_id, hlt]

theorem dispatch_default (b : Build) (c : Consts) (hw : Hw) (fw_regs : FwRegs)
    (src : socket_address) (req out : usrp2_ctrl_data_t) (payload_len : Int) (id : Nat)
    (h : id ∉ case_labels b c) :
    dispatch b c hw fw_regs src req out payload_len id = case_default c fw_regs out := by
  unfold dispatch
  cases hb : b.UMTRX <;> cases hn : b.NO_SPI_I2C <;>
    simp [case_labels, hb, hn] at h ⊢ <;> simp [h]

theorem validation_prints_filter_send (c : Consts) (req : usrp2_ctrl_data_t)
    (payload_len : Int) :
    (validation_prints c req payload_len).filter Event.is_send = [] := by
  unfold validation_prints
  split_ifs <;> simp [Event.is_send]

theorem validation_prints_no_access (c : Consts) (req : usrp2_ctrl_data_t)
    (payload_len : Int) :
    ∀ e ∈ validation_prints c req payload_len, e.is_access = false := by
  unfold validation_prints
  split_ifs <;> simp [Event.is_access]

theorem handle_short (b : Build) (c : Consts) (hw : Hw) (fw_regs : FwRegs)
    (out0 : usrp2_ctrl_data_t) (src dst : socket_address) (req : usrp2_ctrl_data_t)
    (payload_len : Int)
    (hlabel : c.USRP2_CTRL_ID_HUH_WHAT ∉ case_labels b c)
    (h0 : 0 ≤ payload_len) (hshort : payload_len < c.sizeof_usrp2_ctrl_data_t) :
    handle_udp_ctrl_packet b c hw fw_regs out0 src dst req payload_len =
      (fw_regs, validation_prints c req payload_len ++
        [Event.send_udp_pkt c.USRP2_UDP_CTRL_PORT src
          { out0 with proto_ver := c.USRP2_FW_COMPAT_NUM, id := c.USRP2_CTRL_ID_HUH_WHAT,
                      seq := req.seq }
          c.sizeof_usrp2_ctrl_data_t]) := by
  have hid := final_id_short b c req payload_len h0 hshort
  have hd := dispatch_default b c hw fw_regs src req
    { out0 with proto_ver := c.USRP2_FW_COMPAT_NUM, id := c.USRP2_CTRL_ID_HUH_WHAT,
                seq := req.seq } payload_len _ hlabel
  simp [handle_udp_ctrl_packet, hid, hd, case_default]

/-! ## C1: a short control request -/

/-- C1. For every control request whose `payload_len` (a byte count, so not negative) is
smaller than `sizeof(usrp2_ctrl_data_t)`, whatever `id` and `proto_ver` its bytes decode
to, `handle_udp_ctrl_packet` leaves `fw_regs` as it was, sends exactly one packet, the
full-size response whose id is `USRP2_CTRL_ID_HUH_WHAT`, and makes no register, SPI, I2C
or `fw_regs` access.  `USRP2_CTRL_ID_HUH_WHAT` is assumed not to be a case label. -/
theorem short_request_is_unrecognized (b : Build) (c : Consts) (hw : Hw) (fw_regs : FwRegs)
    (out0 : usrp2_ctrl_data_t) (src dst : socket_address) (req : usrp2_ctrl_data_t)
    (payload_len : Int)
    (hlabel : c.USRP2_CTRL_ID_HUH_WHAT ∉ case_labels b c)
    (h0 : 0 ≤ payload_len) (hshort : payload_len < c.sizeof_usrp2_ctrl_data_t) :
    (handle_udp_ctrl_packet b c hw fw_regs out0 src dst req payload_len).1 = fw_regs ∧
    (handle_udp_ctrl_packet b c hw fw_regs out0 src dst req payload_len).2.filter
        Event.is_send =
      [Event.send_udp_pkt c.USRP2_UDP_CTRL_PORT src
        { out0 with proto_ver := c.USRP2_FW_COMPAT_NUM, id := c.USRP2_CTRL_ID_HUH_WHAT,
                    seq := req.seq }
        c.sizeof_usrp2_ctrl_data_t] ∧
    (∀ e ∈ (handle_udp_ctrl_packet b c hw fw_regs out0 src dst req payload_len).2,
      e.is_access = false) := by
  rw [handle_short b c hw fw_regs out0 src dst req payload_len hlabel h0 hshort]
  refine ⟨rfl, ?_, ?_⟩
  · simp [List.filter_append, validation_prints_filter_send, Event.is_send]
  · intro e he
    rcases List.mem_append.1 he with h | h
    · exact validation_prints_no_access c req payload_len e h
    · simp at h
      subst h
      rfl

/-- Witness for C1: a 8-byte request that carries the echo id and a wrong version. -/
theorem short_request_is_unrecognized_witness :
    (handle_udp_ctrl_packet sample_build sample_consts sample_hw zero_fw_regs zero_ctrl_data
        sample_src sample_dst { zero_ctrl_data with proto_ver := 5, id := 108 } 8).2.filter
        Event.is_send =
      [Event.send_udp_pkt 49152 sample_src { zero_ctrl_data with proto_ver := 11, id := 32 } 36] :=
  (short_request_is_unrecognized sample_build sample_consts sample_hw zero_fw_regs
    zero_ctrl_data sample_src sample_dst { zero_ctrl_data with proto_ver := 5, id := 108 } 8
    (by decide) (by decide) (by decide)).2.1

/-! ## C2: a wrong, nonzero protocol version -/

theorem final_id_full (b : Build) (c : Consts) (req : usrp2_ctrl_data_t) (payload_len : Int)
    (hfull : (c.sizeof_usrp2_ctrl_data_t : Int) ≤ payload_len) (hint : payload_len < 2 ^ 31)
    (h4 : sizeof_uint32_t ≤ c.sizeof_usrp2_ctrl_data_t) :
    final_id b c req payload_len =
      if req.proto_ver ≠ c.USRP2_FW_COMPAT_NUM then
        (if b.UMTRX then c.UMTRX_CTRL_ID_REQUEST else c.USRP2_CTRL_ID_WAZZUP_BRO)
      else req.id := by
  have h := to_uint32_of_nonneg payload_len (by omega) hint
  have h1 : ¬ to_uint32 payload_len < c.sizeof_usrp2_ctrl_data_t := by omega
  have h2 : to_uint32 payload_len ≥ sizeof_uint32_t := by omega
  simp [final_id, h1, h2]

theorem validation_prints_full (c : Consts) (req : usrp2_ctrl_data_t) (payload_len : Int)
    (hfull : (c.sizeof_usrp2_ctrl_data_t : Int) ≤ payload_len) (hint : payload_len < 2 ^ 31)
    (h4 : sizeof_uint32_t ≤ c.sizeof_usrp2_ctrl_data_t) :
    validation_prints c req payload_len =
      if req.proto_ver ≠ c.USRP2_FW_COMPAT_NUM ∧ req.proto_ver ≠ 0 then
        [Event.printf_compat c.USRP2_FW_COMPAT_NUM req.proto_ver]
      else [] := by
  have h := to_uint32_of_nonneg payload_len (by omega) hint
  have h1 : ¬ to_uint32 payload_len < c.sizeof_usrp2_ctrl_data_t := by omega
  have h2 : to_uint32 payload_len ≥ sizeof_uint32_t := by omega
  simp [validation_prints, h1, h2]

theorem dispatch_addressing (b : Build) (c : Consts) (hw : Hw) (fw_regs : FwRegs)
    (src : socket_address) (req out : usrp2_ctrl_data_t) (payload_len : Int) :
    dispatch b c hw fw_regs src req out payload_len
        (if b.UMTRX then c.UMTRX_CTRL_ID_REQUEST else c.USRP2_CTRL_ID_WAZZUP_BRO) =
      case_addressing b c hw fw_regs out := by
  unfold dispatch
  cases hb : b.UMTRX <;> simp

/-- C2 (amended). For every full-size control request (`payload_len` at least
`sizeof(usrp2_ctrl_data_t)`) whose protocol-version field is nonzero and different from
`USRP2_FW_COMPAT_NUM`, whatever opcode it carries, `handle_udp_ctrl_packet` leaves
`fw_regs` as it was, prints the mismatch, reads the IP address and sends exactly one
full-size response, whose id is the addressing response of the build and whose
`data.ip_addr` is the current IP address; it makes no register, SPI or I2C access and
does not take the echo path. -/
theorem wrong_version_full_size_is_addressing_probe (b : Build) (c : Consts) (hw : Hw)
    (fw_regs : FwRegs) (out0 : usrp2_ctrl_data_t) (src dst : socket_address)
    (req : usrp2_ctrl_data_t) (payload_len : Int)
    (hfull : (c.sizeof_usrp2_ctrl_data_t : Int) ≤ payload_len) (hint : payload_len < 2 ^ 31)
    (h4 : sizeof_uint32_t ≤ c.sizeof_usrp2_ctrl_data_t)
    (hver : req.proto_ver ≠ c.USRP2_FW_COMPAT_NUM) (hnz : req.proto_ver ≠ 0) :
    handle_udp_ctrl_packet b c hw fw_regs out0 src dst req payload_len =
      (fw_regs,
        [Event.printf_compat c.USRP2_FW_COMPAT_NUM req.proto_ver,
         Event.get_ip_addr,
         Event.send_udp_pkt c.USRP2_UDP_CTRL_PORT src
           { out0 with proto_ver := c.USRP2_FW_COMPAT_NUM, id := addressing_response b c,
                       seq := req.seq, data.ip_addr := hw.get_ip_addr }
           c.sizeof_usrp2_ctrl_data_t]) := by
  have hid := final_id_full b c req payload_len hfull hint h4
  have hp := validation_prints_full c req payload_len hfull hint h4
  simp only [hver, hnz, ne_eq, not_false_eq_true, and_self, if_true] at hid hp
  simp [handle_udp_ctrl_packet, hid, hp, dispatch_addressing, case_addressing,
    addressing_response]

/-- Witness for C2 (amended): a full-size register request with version 5. -/
theorem wrong_version_full_size_is_addressing_probe_witness :
    handle_udp_ctrl_packet sample_build sample_consts sample_hw zero_fw_regs zero_ctrl_data
        sample_src sample_dst { zero_ctrl_data with proto_ver := 5, id := 114 } 36 =
      (zero_fw_regs,
        [Event.printf_compat 11 5, Event.get_ip_addr,
         Event.send_udp_pkt 49152 sample_src
           { zero_ctrl_data with proto_ver := 11, id := 65, data.ip_addr := 3232235778 } 36]) :=
  wrong_version_full_size_is_addressing_probe sample_build sample_consts sample_hw
    zero_fw_regs zero_ctrl_data sample_src sample_dst
    { zero_ctrl_data with proto_ver := 5, id := 114 } 36
    (by decide) (by decide) (by decide) (by decide) (by decide)

/-- C2 (counterexample). A 8-byte request with protocol version 5 (nonzero, not 11) and
the addressing request id is answered with `USRP2_CTRL_ID_HUH_WHAT` (32), not with the
addressing response `USRP2_CTRL_ID_WAZZUP_DUDE` (65): the length check overrides the
version check. -/
theorem wrong_version_short_request_counterexample :
    (5 : Nat) ≠ 0 ∧ (5 : Nat) ≠ sample_consts.USRP2_FW_COMPAT_NUM ∧
    (handle_udp_ctrl_packet sample_build sample_consts sample_hw zero_fw_regs zero_ctrl_data
        sample_src sample_dst { zero_ctrl_data with proto_ver := 5, id := 97 } 8).2 =
      [Event.printf_compat 11 5, Event.printf_length 36 8,
       Event.send_udp_pkt 49152 sample_src { zero_ctrl_data with proto_ver := 11, id := 32 } 36] ∧
    (32 : Nat) ≠ addressing_response sample_build sample_consts := by
  refine ⟨by decide, by decide, ?_, by decide⟩
  decide

/-! ## C3: one packet per request, and its length -/

theorem dispatch_sends (b : Build) (c : Consts) (hw : Hw) (fw_regs : FwRegs)
    (src : socket_address) (req out : usrp2_ctrl_data_t) (payload_len : Int) (id : Nat) :
    ((dispatch b c hw fw_regs src req out payload_len id).returned = false ∧
      (dispatch b c hw fw_regs src req out payload_len id).events.filter Event.is_send = []) ∨
    (id = c.USRP2_CTRL_ID_HOLLER_AT_ME_BRO ∧
      dispatch b c hw fw_regs src req out payload_len id =
        case_echo c fw_regs src req out payload_len) := by
  unfold dispatch
  split_ifs with h1 h2 h3 h4 h5 h6 h7 h8
  · left; simp [case_addressing, Event.is_send]
  · left; simp [case_addressing, Event.is_send]
  · left; simp only [case_zpu]; split_ifs <;> simp [Event.is_send]
  · left; simp [case_spi, Event.is_send]
  · left; simp [case_i2c_read, Event.is_send]
  · left; simp [case_i2c_write, Event.is_send]
  · left; simp only [case_reg]; split_ifs <;> simp [Event.is_send]
  · right; exact ⟨h8, rfl⟩
  · left; simp [case_default, Event.is_send]

theorem dispatch_echo (b : Build) (c : Consts) (hw : Hw) (fw_regs : FwRegs)
    (src : socket_address) (req out : usrp2_ctrl_data_t) (payload_len : Int)
    (hnodup : (case_labels b c).Nodup) :
    dispatch b c hw fw_regs src req out payload_len c.USRP2_CTRL_ID_HOLLER_AT_ME_BRO =
      case_echo c fw_regs src req out payload_len := by
  unfold dispatch
  cases hb : b.UMTRX <;> cases hn : b.NO_SPI_I2C <;>
    simp [case_labels, hb, hn] at hnodup ⊢ <;> split_ifs <;> first | rfl | simp_all

/-- C3. For every control request, `handle_udp_ctrl_packet` sends exactly one UDP packet,
from `USRP2_UDP_CTRL_PORT` to the source of the request; its length is the
`data.echo_args.len` of the request when the opcode after the version and length checks
is `USRP2_CTRL_ID_HOLLER_AT_ME_BRO`, and `sizeof(usrp2_ctrl_data_t)` for every other
opcode.  The case labels of the switch are pairwise distinct, as C requires. -/
theorem one_packet_per_request (b : Build) (c : Consts) (hw : Hw) (fw_regs : FwRegs)
    (out0 : usrp2_ctrl_data_t) (src dst : socket_address) (req : usrp2_ctrl_data_t)
    (payload_len : Int) (hnodup : (case_labels b c).Nodup) :
    ∃ buf,
      (handle_udp_ctrl_packet b c hw fw_regs out0 src dst req payload_len).2.filter
          Event.is_send =
        [Event.send_udp_pkt c.USRP2_UDP_CTRL_PORT src buf
          (if final_id b c req payload_len = c.USRP2_CTRL_ID_HOLLER_AT_ME_BRO then
            req.data.echo_args.len
          else c.sizeof_usrp2_ctrl_data_t)] := by
  refine ⟨(dispatch b c hw fw_regs src req
      { out0 with proto_ver := c.USRP2_FW_COMPAT_NUM, id := c.USRP2_CTRL_ID_HUH_WHAT,
                  seq := req.seq } payload_len (final_id b c req payload_len)).ctrl_data_out, ?_⟩
  by_cases hid : final_id b c req payload_len = c.USRP2_CTRL_ID_HOLLER_AT_ME_BRO
  · have hd := dispatch_echo b c hw fw_regs src req
      { out0 with proto_ver := c.USRP2_FW_COMPAT_NUM, id := c.USRP2_CTRL_ID_HUH_WHAT,
                  seq := req.seq } payload_len hnodup
    simp only [handle_udp_ctrl_packet, hid, hd, case_echo, if_true, List.filter_append,
      validation_prints_filter_send]
    simp [Event.is_send]
  · rcases dispatch_sends b c hw fw_regs src req
      { out0 with proto_ver := c.USRP2_FW_COMPAT_NUM, id := c.USRP2_CTRL_ID_HUH_WHAT,
                  seq := req.seq } payload_len (final_id b c req payload_len) with h | h
    · simp only [handle_udp_ctrl_packet, List.filter_append, validation_prints_filter_send,
        h.1, h.2, hid, if_false]
      simp [Event.is_send]
    · exact absurd h.1 hid

/-- Witness for C3: a full-size echo request that declares 1000 bytes. -/
theorem one_packet_per_request_witness :
    ∃ buf,
      (handle_udp_ctrl_packet sample_build sample_consts sample_hw zero_fw_regs zero_ctrl_data
          sample_src sample_dst
          { zero_ctrl_data with proto_ver := 11, id := 108, data.echo_args.len := 1000 }
          36).2.filter Event.is_send =
        [Event.send_udp_pkt 49152 sample_src buf 1000] :=
  one_packet_per_request sample_build sample_consts sample_hw zero_fw_regs zero_ctrl_data
    sample_src sample_dst
    { zero_ctrl_data with proto_ver := 11, id := 108, data.echo_args.len := 1000 } 36
    (by decide)

/-! ## C4: the echo reply -/

/-- C4 (amended). For every full-size, correct-version echo request with declared length
`L`, `handle_udp_ctrl_packet` makes one call of `send_udp_pkt`, of length `L`, on the
local response struct: its `proto_ver` is `USRP2_FW_COMPAT_NUM`, its `id` is
`USRP2_CTRL_ID_HOLLER_BACK_DUDE`, its `seq` is the `seq` of the request and its
`data.echo_args.len` is the `payload_len` of the request; every other part of the struct
is what the uninitialised local held on entry, and nothing is copied from the request
payload. -/
theorem echo_reply_is_local_struct (b : Build) (c : Consts) (hw : Hw) (fw_regs : FwRegs)
    (out0 : usrp2_ctrl_data_t) (src dst : socket_address) (req : usrp2_ctrl_data_t)
    (payload_len : Int) (hnodup : (case_labels b c).Nodup)
    (hfull : (c.sizeof_usrp2_ctrl_data_t : Int) ≤ payload_len) (hint : payload_len < 2 ^ 31)
    (h4 : sizeof_uint32_t ≤ c.sizeof_usrp2_ctrl_data_t)
    (hver : req.proto_ver = c.USRP2_FW_COMPAT_NUM)
    (hecho : req.id = c.USRP2_CTRL_ID_HOLLER_AT_ME_BRO) :
    handle_udp_ctrl_packet b c hw fw_regs out0 src dst req payload_len =
      (fw_regs,
        [Event.send_udp_pkt c.USRP2_UDP_CTRL_PORT src
           { out0 with proto_ver := c.USRP2_FW_COMPAT_NUM,
                       id := c.USRP2_CTRL_ID_HOLLER_BACK_DUDE,
                       seq := req.seq, data.echo_args.len := payload_len.toNat }
           req.data.echo_args.len]) := by
  have hid := final_id_full b c req payload_len hfull hint h4
  have hp := validation_prints_full c req payload_len hfull hint h4
  have hconv : to_uint32 payload_len = payload_len.toNat := by
    have := to_uint32_of_nonneg payload_len (by omega) hint
    omega
  simp only [hver, ne_eq, not_true_eq_false, false_and, if_false, hecho] at hid hp
  simp [handle_udp_ctrl_packet, hid, hp, dispatch_echo _ _ _ _ _ _ _ _ hnodup, case_echo,
    hconv]

/-- Witness for C4 (amended): a 36-byte echo request with sequence number 7 that declares
20 bytes. -/
theorem echo_reply_is_local_struct_witness :
    handle_udp_ctrl_packet sample_build sample_consts sample_hw zero_fw_regs zero_ctrl_data
        sample_src sample_dst
        { zero_ctrl_data with proto_ver := 11, id := 108, seq := 7, data.echo_args.len := 20 }
        36 =
      (zero_fw_regs,
        [Event.send_udp_pkt 49152 sample_src
           { zero_ctrl_data with proto_ver := 11, id := 76, seq := 7, data.echo_args.len := 36 }
           20]) :=
  echo_reply_is_local_struct sample_build sample_consts sample_hw zero_fw_regs zero_ctrl_data
    sample_src sample_dst
    { zero_ctrl_data with proto_ver := 11, id := 108, seq := 7, data.echo_args.len := 20 } 36
    (by decide) (by decide) (by decide) (by decide) (by decide) (by decide)

/-- C4 (counterexample). A 36-byte, version-11 echo request (id 108) with sequence number
7, SPI data word 43981 in its payload and declared length 36, the size of the whole
struct: the 36 bytes sent are the response struct, whose `id` member is 76, not 108,
and whose SPI data word is the 0 the local held, not 43981; the struct sent is not the
request. -/
theorem echo_reply_not_copied_counterexample :
    (handle_udp_ctrl_packet sample_build sample_consts sample_hw zero_fw_regs zero_ctrl_data
        sample_src sample_dst
        { zero_ctrl_data with proto_ver := 11, id := 108, seq := 7,
                              data.spi_args.data := 43981, data.echo_args.len := 36 }
        36).2 =
      [Event.send_udp_pkt 49152 sample_src
         { zero_ctrl_data with proto_ver := 11, id := 76, seq := 7, data.echo_args.len := 36 }
         36] ∧
    ({ zero_ctrl_data with proto_ver := 11, id := 76, seq := 7, data.echo_args.len := 36 } :
        usrp2_ctrl_data_t) ≠
      { zero_ctrl_data with proto_ver := 11, id := 108, seq := 7,
                            data.spi_args.data := 43981, data.echo_args.len := 36 } := by
  refine ⟨?_, ?_⟩ <;> decide

/-! ## C5: the flag word given to `spi_transact` -/

/-- C5 (the code at the failing input). A full-size, version-11 SPI request with
`mosi_edge` = `USRP2_CLK_EDGE_RISE` (114) and `miso_edge` = 102 (not RISE), with
`SPIF_PUSH_FALL` = 1 and `SPIF_LATCH_FALL` = 2: the handler calls `spi_transact` with
flag word 1, while the bitwise OR of the push flag and the latch flag is 3. -/
theorem spi_flags_drop_latch_flag :
    (handle_udp_ctrl_packet sample_build sample_consts sample_hw zero_fw_regs zero_ctrl_data
        sample_src sample_dst
        { zero_ctrl_data with proto_ver := 11, id := 115,
                              data.spi_args := ⟨1, 43981, 102, 114, 1, 16⟩ }
        36).2 =
      [Event.spi_transact 1 1 43981 16 1,
       Event.send_udp_pkt 49152 sample_src
         { zero_ctrl_data with proto_ver := 11, id := 83, data.spi_args.data := 43981 } 36] ∧
    (sample_consts.SPIF_PUSH_FALL ||| sample_consts.SPIF_LATCH_FALL) = 3 := by
  refine ⟨?_, ?_⟩ <;> decide

/-! ## C6, C7: the data packet handler -/

theorem unreachable_case_of_port (c : Consts) (hports : (rx_ports c).Nodup) (r : RxCtrlReg) :
    unreachable_case c (rx_port c r) = some r := by
  simp only [rx_ports, List.nodup_cons, List.mem_cons, List.mem_singleton, not_or,
    List.not_mem_nil, not_false_eq_true, List.nodup_nil, and_true] at hports
  obtain ⟨⟨h01, h02, h03⟩, ⟨h12, h13⟩, h23⟩ := hports
  cases r <;>
    simp [unreachable_case, rx_port, Ne.symm h01, Ne.symm h02, Ne.symm h03, Ne.symm h12,
      Ne.symm h13, Ne.symm h23]

theorem unreachable_case_of_not_port (c : Consts) (port : Nat) (h : port ∉ rx_ports c) :
    unreachable_case c port = none := by
  simp [rx_ports] at h
  simp [unreachable_case, h]

theorem which_case_of_not_port (c : Consts) (port : Nat) (h : port ∉ rx_ports c) :
    which_case c port = none := by
  simp [rx_ports] at h
  simp [which_case, h]

theorem end_streaming_get (s : RxCtrlRegs) (r : RxCtrlReg) :
    (end_streaming s r).1.get r = ⟨end_streaming_cmd, 0, 0⟩ := by
  cases r <;> rfl

theorem end_streaming_get_other (s : RxCtrlRegs) (r r' : RxCtrlReg) (h : r' ≠ r) :
    (end_streaming s r).1.get r' = s.get r' := by
  cases r <;> cases r' <;> first | rfl | exact absurd rfl h

/-- C6. When `handle_udp_data_packet` is called with `payload == NULL`: if `src.port` is
the RX port of a lane, then whatever the four register blocks held before, the block of
that lane ends with `cmd` = 0x90000000 (bits 31 and 28), `time_secs` = 0 and
`time_ticks` = 0, the assignments to receive-control registers are exactly these three,
in this order with `time_ticks` last, and the blocks of the other lanes keep their
values; if `src.port` is none of the four RX ports, no register is written and nothing
else is done.  The four case labels are pairwise distinct, as C requires. -/
theorem unreachable_halts_the_lane (c : Consts) (hw : Hw) (eth_mac_host0 : Nat)
    (regs : RxCtrlRegs) (src dst : socket_address) (payload_len : Int)
    (hports : (rx_ports c).Nodup) :
    (∀ r : RxCtrlReg, src.port = rx_port c r →
      (handle_udp_data_packet c hw eth_mac_host0 regs src dst none payload_len).1.get r =
        ⟨0x90000000, 0, 0⟩ ∧
      (handle_udp_data_packet c hw eth_mac_host0 regs src dst none payload_len).2.filter
          Event.is_rx_ctrl_write =
        [Event.rx_ctrl_write r .cmd 0x90000000, Event.rx_ctrl_write r .time_secs 0,
         Event.rx_ctrl_write r .time_ticks 0] ∧
      (∀ r', r' ≠ r →
        (handle_udp_data_packet c hw eth_mac_host0 regs src dst none payload_len).1.get r' =
          regs.get r')) ∧
    (src.port ∉ rx_ports c →
      handle_udp_data_packet c hw eth_mac_host0 regs src dst none payload_len = (regs, [])) := by
  have hcmd : end_streaming_cmd = 0x90000000 := by decide
  constructor
  · intro r hr
    have hcase := unreachable_case_of_port c hports r
    rw [← hr] at hcase
    simp only [handle_udp_data_packet, hcase]
    refine ⟨?_, ?_, ?_⟩
    · rw [← hcmd]; exact end_streaming_get regs r
    · simp [end_streaming, program_framer, Event.is_rx_ctrl_write, hcmd]
    · intro r' hne
      exact end_streaming_get_other regs r r' hne
  · intro h
    simp [handle_udp_data_packet, unreachable_case_of_not_port c src.port h]

/-- Witness for C6: destination unreachable reported for the RX port of DSP1 (49158) while
its register block holds 4, 5, 6. -/
theorem unreachable_halts_the_lane_witness :
    (handle_udp_data_packet sample_consts sample_hw 0 sample_regs ⟨167772165, 49158⟩
        sample_dst none 0).1.get .sr_rx_ctrl1 = ⟨0x90000000, 0, 0⟩ ∧
    (handle_udp_data_packet sample_consts sample_hw 0 sample_regs ⟨167772165, 49158⟩
        sample_dst none 0).2.filter Event.is_rx_ctrl_write =
      [Event.rx_ctrl_write .sr_rx_ctrl1 .cmd 0x90000000,
       Event.rx_ctrl_write .sr_rx_ctrl1 .time_secs 0,
       Event.rx_ctrl_write .sr_rx_ctrl1 .time_ticks 0] :=
  have h := (unreachable_halts_the_lane sample_consts sample_hw 0 sample_regs
    ⟨167772165, 49158⟩ sample_dst 0 (by decide)).1 .sr_rx_ctrl1 rfl
  ⟨h.1, h.2.1⟩

/-- C7. For every data packet with the payload present, `handle_udp_data_packet` maps the
destination port to the lane index by the table DSP0 -> 0, DSP0_2 -> 1, DSP1 -> 2,
DSP1_2 -> 3, looks up the link address of `src.addr` in the ARP cache and calls
`setup_framer` exactly once, with (that link address, the own link address, `src`,
`dst`, lane); no register block is written.  For a destination port outside the table
nothing is done and `setup_framer` is not called.  The four case labels are pairwise
distinct, as C requires. -/
theorem data_packet_programs_the_framer (c : Consts) (hw : Hw) (eth_mac_host0 : Nat)
    (regs : RxCtrlRegs) (src dst : socket_address) (bytes : List Nat) (payload_len : Int)
    (hports : (rx_ports c).Nodup) :
    (∀ lane : Nat,
      (dst.port = c.USRP2_UDP_RX_DSP0_PORT ∧ lane = 0) ∨
      (dst.port = c.USRP2_UDP_RX_DSP0_2_PORT ∧ lane = 1) ∨
      (dst.port = c.USRP2_UDP_RX_DSP1_PORT ∧ lane = 2) ∨
      (dst.port = c.USRP2_UDP_RX_DSP1_2_PORT ∧ lane = 3) →
      handle_udp_data_packet c hw eth_mac_host0 regs src dst (some bytes) payload_len =
        (regs,
          [Event.arp_cache_lookup_mac src.addr,
           Event.setup_framer (hw.arp_cache_lookup_mac src.addr eth_mac_host0)
             hw.ethernet_mac_addr src dst lane])) ∧
    (dst.port ∉ rx_ports c →
      handle_udp_data_packet c hw eth_mac_host0 regs src dst (some bytes) payload_len =
        (regs, [])) := by
  constructor
  · intro lane h
    simp only [rx_ports, List.nodup_cons, List.mem_cons, List.mem_singleton, not_or,
      List.not_mem_nil, not_false_eq_true, List.nodup_nil, and_true] at hports
    obtain ⟨⟨h01, h02, h03⟩, ⟨h12, h13⟩, h23⟩ := hports
    rcases h with ⟨hp, hl⟩ | ⟨hp, hl⟩ | ⟨hp, hl⟩ | ⟨hp, hl⟩ <;>
      simp [handle_udp_data_packet, which_case, program_framer, hp, hl, Ne.symm h01,
        Ne.symm h02, Ne.symm h03, Ne.symm h12, Ne.symm h13, Ne.symm h23]
  · intro h
    simp [handle_udp_data_packet, which_case_of_not_port c dst.port h]

/-- Witness for C7: a packet from 10.0.0.5:45101 to the RX port of DSP0_2 (49160). -/
theorem data_packet_programs_the_framer_witness :
    handle_udp_data_packet sample_consts sample_hw 0 sample_regs sample_src
        ⟨167772162, 49160⟩ (some [1, 2, 3, 4]) 4 =
      (sample_regs,
        [Event.arp_cache_lookup_mac 167772165,
         Event.setup_framer 167773165 2 sample_src ⟨167772162, 49160⟩ 1]) :=
  (data_packet_programs_the_framer sample_consts sample_hw 0 sample_regs sample_src
    ⟨167772162, 49160⟩ [1, 2, 3, 4] 4 (by decide)).1 1 (Or.inr (Or.inl ⟨rfl, rfl⟩))

end Fw

namespace B100

/-! ## C8: which packets become async events -/

/-- C8. Let `info` be `if_packet_info` after the call of `vrt::if_hdr_unpack_le`.  If
`info.sid` is `B100_TX_ASYNC_SID` and `info.packet_type` is not `PACKET_TYPE_DATA`, then
`handle_async_message` pushes one record with `push_with_pop_on_full`, and that record has
channel 0, `has_time_spec` = (`has_tsi` and `has_tsf`) and `event_code` equal to the
context code of the packet.  In every other case the queue is left as it was, nothing
is pushed, and the last message written is the error `Unknown async packet`; every
message written then is an error message.  The function returns in both cases. -/
theorem async_message_pushed_iff_tx_async (k : HostConsts) (env : Env)
    (info0 : if_packet_info_t) (io : io_impl) (rbuf : managed_recv_buffer) :
    (((env.if_hdr_unpack_le rbuf.words
          { info0 with num_packet_words32 := rbuf.size / k.sizeof_uint32 }).info.sid =
        k.B100_TX_ASYNC_SID ∧
      (env.if_hdr_unpack_le rbuf.words
          { info0 with num_packet_words32 := rbuf.size / k.sizeof_uint32 }).info.packet_type ≠
        k.PACKET_TYPE_DATA) →
      ∃ m : async_metadata_t,
        (handle_async_message k env info0 io rbuf).1.async_msg_fifo =
          io.async_msg_fifo.push_with_pop_on_full m ∧
        m.channel = 0 ∧
        m.has_time_spec =
          ((env.if_hdr_unpack_le rbuf.words
              { info0 with num_packet_words32 := rbuf.size / k.sizeof_uint32 }).info.has_tsi &&
           (env.if_hdr_unpack_le rbuf.words
              { info0 with num_packet_words32 := rbuf.size / k.sizeof_uint32 }).info.has_tsf) ∧
        m.event_code = env.get_context_code rbuf.words
          (env.if_hdr_unpack_le rbuf.words
            { info0 with num_packet_words32 := rbuf.size / k.sizeof_uint32 }).info) ∧
    (¬ ((env.if_hdr_unpack_le rbuf.words
          { info0 with num_packet_words32 := rbuf.size / k.sizeof_uint32 }).info.sid =
        k.B100_TX_ASYNC_SID ∧
      (env.if_hdr_unpack_le rbuf.words
          { info0 with num_packet_words32 := rbuf.size / k.sizeof_uint32 }).info.packet_type ≠
        k.PACKET_TYPE_DATA) →
      (handle_async_message k env info0 io rbuf).1 = io ∧
      (handle_async_message k env info0 io rbuf).2.getLast? =
        some (Msg.error "Unknown async packet") ∧
      ∀ m ∈ (handle_async_message k env info0 io rbuf).2, ∃ text, m = Msg.error text) := by
  constructor
  · intro h
    have hc : is_tx_async_message k (env.if_hdr_unpack_le rbuf.words
        { info0 with num_packet_words32 := rbuf.size / k.sizeof_uint32 }).info = true := by
      simp [is_tx_async_message, h.1, h.2]
    refine ⟨async_metadata_of k env rbuf.words (env.if_hdr_unpack_le rbuf.words
        { info0 with num_packet_words32 := rbuf.size / k.sizeof_uint32 }).info, ?_, rfl, rfl, rfl⟩
    simp [handle_async_message, hc]
  · intro h
    have hc : is_tx_async_message k (env.if_hdr_unpack_le rbuf.words
        { info0 with num_packet_words32 := rbuf.size / k.sizeof_uint32 }).info = false := by
      simp only [is_tx_async_message, Bool.and_eq_false_iff, beq_eq_false_iff_ne, ne_eq,
        bne_eq_false_iff_eq]
      by_cases hs : (env.if_hdr_unpack_le rbuf.words
          { info0 with num_packet_words32 := rbuf.size / k.sizeof_uint32 }).info.sid =
        k.B100_TX_ASYNC_SID
      · right
        by_contra hne
        exact h ⟨hs, hne⟩
      · left; exact hs
    simp only [handle_async_message, hc]
    refine ⟨rfl, ?_, ?_⟩
    · simp
    · intro m hm
      cases hu : env.if_hdr_unpack_le rbuf.words
          { info0 with num_packet_words32 := rbuf.size / k.sizeof_uint32 } with
      | returned i =>
        simp [hu] at hm
        exact ⟨_, hm⟩
      | threw what i =>
        simp [hu] at hm
        rcases hm with hm | hm
        · exact ⟨_, hm⟩
        · exact ⟨_, hm⟩

/-! ## C9: the async queue keeps the newest 100 records -/

theorem push_buffer {α : Type} (c : Nat) (hc : 0 < c) (ys : List α) (x : α) :
    (bounded_buffer.push_with_pop_on_full ⟨c, ys.drop (ys.length - c)⟩ x) =
      ⟨c, (ys ++ [x]).drop ((ys ++ [x]).length - c)⟩ := by
  unfold bounded_buffer.push_with_pop_on_full
  by_cases h : c ≤ ys.length
  · have h1 : c ≤ (ys.drop (ys.length - c)).length := by
      rw [List.length_drop]; omega
    have h2 : (ys ++ [x]).length - c = ys.length - c + 1 := by
      rw [List.length_append, List.length_singleton]; omega
    have h3 : ys.length - c + 1 ≤ ys.length := by omega
    simp only [h1, if_true, h2]
    rw [List.tail_drop, List.drop_append_of_le_length h3]
  · have h1 : ¬ c ≤ (ys.drop (ys.length - c)).length := by
      rw [List.length_drop]; omega
    have h2 : (ys ++ [x]).length - c = 0 := by
      rw [List.length_append, List.length_singleton]; omega
    have h3 : ys.length - c = 0 := by omega
    simp only [h2, h3, List.drop_zero, List.length_drop, Nat.sub_zero, if_neg h]

theorem foldl_push {α : Type} (c : Nat) (hc : 0 < c) (xs : List α) :
    xs.foldl bounded_buffer.push_with_pop_on_full (bounded_buffer.make c) =
      ⟨c, xs.drop (xs.length - c)⟩ := by
  induction xs using List.reverseRecOn with
  | nil => simp [bounded_buffer.make]
  | append_singleton ys x ih =>
    rw [List.foldl_append, ih]
    exact push_buffer c hc ys x

theorem push_keeps_bound {α : Type} (q : bounded_buffer α) (x : α) (hc : 0 < q.capacity)
    (h : q.buffer.length ≤ q.capacity) :
    (q.push_with_pop_on_full x).capacity = q.capacity ∧
    (q.push_with_pop_on_full x).buffer.length ≤ q.capacity := by
  unfold bounded_buffer.push_with_pop_on_full
  split_ifs with hfull
  · refine ⟨rfl, ?_⟩
    simp only [List.length_append, List.length_tail, List.length_singleton]
    omega
  · refine ⟨rfl, ?_⟩
    simp only [List.length_append, List.length_singleton]
    omega

theorem run_io_call_keeps_bound (k : HostConsts) (env : Env) (io : io_impl) (call : IoCall)
    (hc : io.async_msg_fifo.capacity = 100) (h : io.async_msg_fifo.buffer.length ≤ 100) :
    (run_io_call k env io call).async_msg_fifo.capacity = 100 ∧
    (run_io_call k env io call).async_msg_fifo.buffer.length ≤ 100 := by
  cases call with
  | handle_async_message info0 rbuf =>
    simp only [run_io_call, handle_async_message]
    split_ifs
    · have hp := push_keeps_bound io.async_msg_fifo
        (async_metadata_of k env rbuf.words (env.if_hdr_unpack_le rbuf.words
          { info0 with num_packet_words32 := rbuf.size / k.sizeof_uint32 }).info)
        (by omega) (by omega)
      exact ⟨by rw [hp.1, hc], by rw [← hc]; exact hp.2⟩
    · exact ⟨hc, h⟩
  | recv_async_msg =>
    simp only [run_io_call, recv_async_msg, bounded_buffer.pop_with_timed_wait]
    cases hb : io.async_msg_fifo.buffer with
    | nil => simp [hc, hb]
    | cons x rest =>
      rw [hb] at h
      simp only [List.length_cons] at h
      exact ⟨hc, by simp only []; omega⟩

theorem run_io_calls_keep_bound (k : HostConsts) (env : Env) (calls : List IoCall) :
    ∀ io : io_impl, io.async_msg_fifo.capacity = 100 → io.async_msg_fifo.buffer.length ≤ 100 →
      (run_io_calls k env io calls).async_msg_fifo.capacity = 100 ∧
      (run_io_calls k env io calls).async_msg_fifo.buffer.length ≤ 100 := by
  induction calls with
  | nil => intro io hc h; exact ⟨hc, h⟩
  | cons call rest ih =>
    intro io hc h
    have h1 := run_io_call_keeps_bound k env io call hc h
    exact ih (run_io_call k env io call) h1.1 h1.2

/-- C9. The async queue is made with capacity 100, and after any sequence `xs` of pushes
with `push_with_pop_on_full` and no pops it holds exactly the last `min n 100` pushed
records in push order (`n` the number of pushes): its length is `min n 100`, never more
than 100, the record pushed last is the newest element of the queue, and a push onto
the queue when it is full returns with the oldest record dropped and the new one
added.  Under any sequence of calls of `handle_async_message` and `recv_async_msg`, the
only functions that touch the queue, its length stays at most 100. -/
theorem async_queue_keeps_newest_100 (xs : List async_metadata_t) :
    io_impl.make.async_msg_fifo.capacity = 100 ∧
    (∀ (k : HostConsts) (env : Env) (calls : List IoCall),
      (run_io_calls k env io_impl.make calls).async_msg_fifo.buffer.length ≤ 100) ∧
    (xs.foldl bounded_buffer.push_with_pop_on_full io_impl.make.async_msg_fifo).buffer =
      xs.drop (xs.length - 100) ∧
    (xs.foldl bounded_buffer.push_with_pop_on_full io_impl.make.async_msg_fifo).buffer.length =
      min xs.length 100 ∧
    (xs.foldl bounded_buffer.push_with_pop_on_full io_impl.make.async_msg_fifo).buffer.length
      ≤ 100 ∧
    (∀ x, xs.getLast? = some x →
      (xs.foldl bounded_buffer.push_with_pop_on_full
        io_impl.make.async_msg_fifo).buffer.getLast? = some x) ∧
    (∀ x, 100 ≤ xs.length →
      ((xs.foldl bounded_buffer.push_with_pop_on_full
          io_impl.make.async_msg_fifo).push_with_pop_on_full x).buffer =
        (xs.foldl bounded_buffer.push_with_pop_on_full
          io_impl.make.async_msg_fifo).buffer.tail ++ [x]) := by
  have h : xs.foldl bounded_buffer.push_with_pop_on_full io_impl.make.async_msg_fifo =
      ⟨100, xs.drop (xs.length - 100)⟩ := foldl_push 100 (by decide) xs
  rw [h]
  refine ⟨rfl, fun k env calls =>
    (run_io_calls_keep_bound k env calls io_impl.make rfl (Nat.zero_le _)).2,
    rfl, ?_, ?_, ?_, ?_⟩
  · simp only [List.length_drop]; omega
  · simp only [List.length_drop]; omega
  · intro x hx
    induction xs using List.reverseRecOn with
    | nil => simp at hx
    | append_singleton ys y _ =>
      have h3 : (ys ++ [y]).length - 100 ≤ ys.length := by
        rw [List.length_append, List.length_singleton]; omega
      rw [List.drop_append_of_le_length h3]
      simpa using hx
  · intro x hx
    have h1 : 100 ≤ (xs.drop (xs.length - 100)).length := by
      rw [List.length_drop]; omega
    have h2 : 100 ≤ xs.length - (xs.length - 100) := by omega
    simp [bounded_buffer.push_with_pop_on_full, h2]

/-! ## C10: samples per packet of a receive streamer -/

theorem size_t_sub_of_le (k : HostConsts) (a b : Nat) (hle : b ≤ a)
    (ha : a < 2 ^ k.size_t_bits) : size_t_sub k a b = a - b := by
  unfold size_t_sub
  have h1 : ((a : Int) - (b : Int)) = ((a - b : Nat) : Int) := by omega
  have h2 : ((2 : Int) ^ k.size_t_bits) = ((2 ^ k.size_t_bits : Nat) : Int) := by
    push_cast; rfl
  rw [h1, h2, ← Int.natCast_mod, Int.toNat_natCast]
  exact Nat.mod_eq_of_lt (by omega)

theorem rx_hdr_size_eq (k : HostConsts)
    (hcid : k.sizeof_cid ≤ k.max_if_hdr_words32 * k.sizeof_uint32 + k.sizeof_tlr)
    (hbits : k.max_if_hdr_words32 * k.sizeof_uint32 + k.sizeof_tlr < 2 ^ k.size_t_bits) :
    rx_hdr_size k = k.max_if_hdr_words32 * k.sizeof_uint32 + k.sizeof_tlr - k.sizeof_cid := by
  unfold rx_hdr_size
  have h1 : size_t_mul k k.max_if_hdr_words32 k.sizeof_uint32 =
      k.max_if_hdr_words32 * k.sizeof_uint32 := by
    unfold size_t_mul
    exact Nat.mod_eq_of_lt (by omega)
  have h2 : size_t_add k 0 (k.max_if_hdr_words32 * k.sizeof_uint32) =
      k.max_if_hdr_words32 * k.sizeof_uint32 := by
    unfold size_t_add
    rw [Nat.zero_add]
    exact Nat.mod_eq_of_lt (by omega)
  have h3 : size_t_add k (k.max_if_hdr_words32 * k.sizeof_uint32) k.sizeof_tlr =
      k.max_if_hdr_words32 * k.sizeof_uint32 + k.sizeof_tlr := by
    unfold size_t_add
    exact Nat.mod_eq_of_lt hbits
  rw [h1, h2, h3]
  exact size_t_sub_of_le k _ _ hcid hbits

theorem rx_bpp_eq (k : HostConsts)
    (hcid : k.sizeof_cid ≤ k.max_if_hdr_words32 * k.sizeof_uint32 + k.sizeof_tlr)
    (hhdr : k.max_if_hdr_words32 * k.sizeof_uint32 + k.sizeof_tlr - k.sizeof_cid ≤ 2048)
    (hbits : 2048 + k.sizeof_cid < 2 ^ k.size_t_bits) :
    rx_bpp k =
      2048 - (k.max_if_hdr_words32 * k.sizeof_uint32 + k.sizeof_tlr - k.sizeof_cid) := by
  unfold rx_bpp
  rw [rx_hdr_size_eq k hcid (by omega)]
  exact size_t_sub_of_le k _ _ hhdr (by omega)

theorem bind_rx_channels_ok (env : Env) (streamer spp : Nat) (otw_format : String)
    (sc8_scalar : Nat) (noclear : Bool)
    (haccept : env.rx_dsp_accepts_format otw_format = true) :
    ∀ (chans : List Nat) (chan_i : Nat) (self : b100_impl) (ev : List HostEvent),
      (∀ dsp ∈ chans, dsp < self.num_rx_dsps ∧ dsp < self._rx_streamers.length) →
      ∃ self1 ev1,
        bind_rx_channels env streamer spp otw_format sc8_scalar noclear chan_i chans self ev =
          (self1, ev1, none) ∧
        (∀ e ∈ ev, e ∈ ev1) ∧
        (∀ dsp ∈ chans, HostEvent.set_nsamps_per_packet dsp spp ∈ ev1) ∧
        (∀ d n, HostEvent.set_nsamps_per_packet d n ∈ ev1 →
          HostEvent.set_nsamps_per_packet d n ∈ ev ∨ (d ∈ chans ∧ n = spp)) := by
  intro chans
  induction chans with
  | nil =>
    intro chan_i self ev _
    exact ⟨self, ev, rfl, fun e he => he, by simp, fun d n h => Or.inl h⟩
  | cons dsp rest ih =>
    intro chan_i self ev hr
    have hd := hr dsp (List.mem_cons_self _ _)
    have hrest : ∀ d ∈ rest,
        d < ({ self with _rx_streamers := self._rx_streamers.set dsp (some streamer) } :
              b100_impl).num_rx_dsps ∧
        d < ({ self with _rx_streamers := self._rx_streamers.set dsp (some streamer) } :
              b100_impl)._rx_streamers.length := by
      intro d hdm
      have := hr d (List.mem_cons_of_mem _ hdm)
      simpa using this
    obtain ⟨self1, ev1, hrun, hpre, hall, honly⟩ :=
      ih (chan_i + 1)
        { self with _rx_streamers := self._rx_streamers.set dsp (some streamer) }
        ((if noclear then ev ++ [HostEvent.set_nsamps_per_packet dsp spp]
          else ev ++ [HostEvent.set_nsamps_per_packet dsp spp] ++ [HostEvent.clear dsp]) ++
          [HostEvent.set_format dsp otw_format sc8_scalar,
           HostEvent.set_xport_chan_get_buff streamer chan_i dsp true,
           HostEvent.set_overflow_handler streamer chan_i dsp]) hrest
    refine ⟨self1, ev1, ?_, ?_, ?_, ?_⟩
    · simp only [bind_rx_channels, hd.1, hd.2, haccept, not_true_eq_false, if_false]
      exact hrun
    · intro e he
      apply hpre
      cases noclear <;> simp [he]
    · intro d hdm
      rcases List.mem_cons.1 hdm with h | h
      · subst h
        apply hpre
        cases noclear <;> simp
      · exact hall d h
    · intro d n hmem
      rcases honly d n hmem with h | h
      · cases noclear <;> simp at h
        · rcases h with h | h
          · exact Or.inl h
          · exact Or.inr ⟨by simp [h.1], h.2⟩
        · rcases h with h | h
          · exact Or.inl h
          · exact Or.inr ⟨by simp [h.1], h.2⟩
      · exact Or.inr ⟨List.mem_cons_of_mem _ h.1, h.2⟩

/-- C10. In `get_rx_stream`, for a wire format (an empty `otw_format` defaulted to `sc16`)
with `b > 0` bytes per item, let `hdr_size` be
`max_if_hdr_words32*sizeof(uint32_t) + sizeof(tlr) - sizeof(cid)` and
`spp = (2048 - hdr_size) / b`.  Then `hdr_size + spp*b <= 2048 < hdr_size + (spp+1)*b`,
and when the calls made on the way return (the `scalar` argument casts, a converter
exists, the DSP accepts the format, every requested channel names a DSP) the function
returns a streamer that was constructed with `spp`, every requested channel's DSP has
`set_nsamps_per_packet(spp)` called, and no DSP is given any other value.  The header
constants are such that `hdr_size` does not wrap and is at most 2048. -/
theorem rx_stream_samples_per_packet (k : HostConsts) (env : Env) (self : b100_impl)
    (args_ : stream_args_t) (b : Nat)
    (hcid : k.sizeof_cid ≤ k.max_if_hdr_words32 * k.sizeof_uint32 + k.sizeof_tlr)
    (hhdr : k.max_if_hdr_words32 * k.sizeof_uint32 + k.sizeof_tlr - k.sizeof_cid ≤ 2048)
    (hbits : 2048 + k.sizeof_cid < 2 ^ k.size_t_bits)
    (hb : 0 < b)
    (hfmt : env.get_bytes_per_item (default_otw_format args_) = some b)
    (hscalar : ∀ v, get_key args_.args "scalar" = some v → (env.cast_scalar v).isSome = true)
    (hconv : env.has_converter (default_otw_format args_ ++ "_item32_le") args_.cpu_format
      = true)
    (haccept : env.rx_dsp_accepts_format (default_otw_format args_) = true)
    (hchan : ∀ dsp ∈ default_channels args_,
      dsp < self.num_rx_dsps ∧ dsp < self._rx_streamers.length) :
    (k.max_if_hdr_words32 * k.sizeof_uint32 + k.sizeof_tlr - k.sizeof_cid) +
        (2048 - (k.max_if_hdr_words32 * k.sizeof_uint32 + k.sizeof_tlr - k.sizeof_cid)) / b * b
      ≤ 2048 ∧
    2048 < (k.max_if_hdr_words32 * k.sizeof_uint32 + k.sizeof_tlr - k.sizeof_cid) +
        ((2048 - (k.max_if_hdr_words32 * k.sizeof_uint32 + k.sizeof_tlr - k.sizeof_cid)) / b
          + 1) * b ∧
    (get_rx_stream k env self args_).result = .ok self.next_streamer ∧
    HostEvent.make_recv_packet_streamer self.next_streamer
        ((2048 - (k.max_if_hdr_words32 * k.sizeof_uint32 + k.sizeof_tlr - k.sizeof_cid)) / b)
      ∈ (get_rx_stream k env self args_).events ∧
    (∀ dsp ∈ default_channels args_,
      HostEvent.set_nsamps_per_packet dsp
          ((2048 - (k.max_if_hdr_words32 * k.sizeof_uint32 + k.sizeof_tlr - k.sizeof_cid)) / b)
        ∈ (get_rx_stream k env self args_).events) ∧
    (∀ d n, HostEvent.set_nsamps_per_packet d n ∈ (get_rx_stream k env self args_).events →
      n = (2048 - (k.max_if_hdr_words32 * k.sizeof_uint32 + k.sizeof_tlr - k.sizeof_cid)) / b)
    := by
  have hbpp := rx_bpp_eq k hcid hhdr hbits
  generalize hH : k.max_if_hdr_words32 * k.sizeof_uint32 + k.sizeof_tlr - k.sizeof_cid = hdr
    at hhdr hbpp ⊢
  have hdiv : (2048 - hdr) / b * b ≤ 2048 - hdr := Nat.div_mul_le_self _ _
  have hlt : 2048 - hdr < ((2048 - hdr) / b + 1) * b := by
    have h1 := Nat.div_add_mod (2048 - hdr) b
    have h2 := Nat.mod_lt (2048 - hdr) hb
    have h3 : ((2048 - hdr) / b + 1) * b = b * ((2048 - hdr) / b) + b := by ring
    rw [h3]
    generalize b * ((2048 - hdr) / b) = m at h1 ⊢
    omega
  refine ⟨by omega, by omega, ?_⟩
  obtain ⟨b1, rfl⟩ : ∃ b1, b = b1 + 1 := ⟨b - 1, by omega⟩
  have hsc : ∃ sc, (match get_key args_.args "scalar" with
      | none => (Except.ok 0x400 : Except Fault Nat)
      | some v =>
        match env.cast_scalar v with
        | none => .error (.bad_scalar v)
        | some n => .ok n) = .ok sc := by
    cases hk : get_key args_.args "scalar" with
    | none => exact ⟨_, rfl⟩
    | some v =>
      have h1 := hscalar v hk
      cases hcv : env.cast_scalar v with
      | none => simp [hcv] at h1
      | some n => exact ⟨n, by simp [hcv]⟩
  obtain ⟨sc, hsc⟩ := hsc
  obtain ⟨self1, ev1, hrun, hpre, hall, honly⟩ :=
    bind_rx_channels_ok env self.next_streamer ((2048 - hdr) / (b1 + 1))
      (default_otw_format args_) sc (has_key args_.args "noclear") haccept
      (default_channels args_) 0
      { self with next_streamer := self.next_streamer + 1 }
      ([HostEvent.make_recv_packet_streamer self.next_streamer ((2048 - hdr) / (b1 + 1)),
        HostEvent.resize self.next_streamer (default_channels args_).length,
        HostEvent.set_vrt_unpacker self.next_streamer] ++
       [HostEvent.set_converter self.next_streamer
          (default_otw_format args_ ++ "_item32_le") 1 args_.cpu_format 1])
      (by simpa using hchan)
  have hres : get_rx_stream k env self args_ =
      ⟨self1, ev1 ++ [HostEvent.update_rates], .ok self.next_streamer⟩ := by
    simp only [get_rx_stream, hsc, hfmt, hbpp, hconv, not_true_eq_false, if_false, hrun]
  rw [hres]
  refine ⟨rfl, ?_, ?_, ?_⟩
  · exact List.mem_append_left _ (hpre _ (by simp))
  · intro dsp hd
    exact List.mem_append_left _ (hall dsp hd)
  · intro d n hmem
    rcases List.mem_append.1 hmem with h | h
    · rcases honly d n h with h2 | h2
      · simp at h2
      · exact h2.2
    · simp at h

/-- Witness for C10: channels 0 and 1, `otw_format` left empty, on a device with two
receive DSPs: `hdr_size` is 60, `spp` is 497 and both DSPs are given 497. -/
theorem rx_stream_samples_per_packet_witness :
    (get_rx_stream sample_host_consts sample_env sample_impl
        ⟨"fc32", "", [], [0, 1]⟩).result = .ok 0 ∧
    HostEvent.make_recv_packet_streamer 0 497 ∈
      (get_rx_stream sample_host_consts sample_env sample_impl ⟨"fc32", "", [], [0, 1]⟩).events ∧
    HostEvent.set_nsamps_per_packet 0 497 ∈
      (get_rx_stream sample_host_consts sample_env sample_impl ⟨"fc32", "", [], [0, 1]⟩).events ∧
    HostEvent.set_nsamps_per_packet 1 497 ∈
      (get_rx_stream sample_host_consts sample_env sample_impl ⟨"fc32", "", [], [0, 1]⟩).events :=
  have h := rx_stream_samples_per_packet sample_host_consts sample_env sample_impl
    ⟨"fc32", "", [], [0, 1]⟩ 4 (by decide) (by decide) (by decide) (by decide) (by decide)
    (by decide) (by decide) (by decide) (by decide)
  ⟨h.2.2.1, h.2.2.2.1, h.2.2.2.2.1 0 (by decide), h.2.2.2.2.1 1 (by decide)⟩

/-! ## C11: the wire format check of `get_tx_stream` -/

theorem bind_tx_channels_no_value_error (accepts_policy : String → Bool) (streamer : Nat)
    (args : List (String × String)) (what : String) :
    ∀ (chans : List Nat) (chan_i : Nat) (self : b100_impl) (ev : List TxEvent),
      (bind_tx_channels accepts_policy streamer args chan_i chans self ev).2.2 ≠
        some (.value_error what) := by
  intro chans
  induction chans with
  | nil => intro chan_i self ev; simp [bind_tx_channels]
  | cons dsp rest ih =>
    intro chan_i self ev
    unfold bind_tx_channels
    by_cases hd : dsp ≠ 0
    · simp [hd]
    · simp only [hd, if_false]
      cases hp : (if has_key args "underflow_policy" = true then
          get_key args "underflow_policy" else none) with
      | none =>
        simp only []
        split_ifs <;> first | exact ih _ _ _ | simp
      | some p =>
        simp only []
        split_ifs <;> first | exact ih _ _ _ | simp

/-- C11. For every requested `otw_format` that is not empty and not `sc16`,
`get_tx_stream` throws the `uhd::value_error` of the wire format check, and it does so
before anything is done: the state of the device is as before (no entry of
`_tx_streamers` is modified, no streamer is made) and no call has been made (the TX DSP
is not cleared, no underflow policy is set).  An empty `otw_format` is treated as `sc16`:
the run is the same as for `sc16`, and for both the wire format check does not throw. -/
theorem tx_stream_rejects_other_wire_formats (k : HostConsts) (env : Env)
    (accepts_policy : String → Bool) (self : b100_impl) (args_ : stream_args_t) :
    (args_.otw_format ≠ "" → args_.otw_format ≠ "sc16" →
      (get_tx_stream k env accepts_policy self args_).result =
        .error (.value_error
          ("USRP TX cannot handle requested wire format: " ++ args_.otw_format)) ∧
      (get_tx_stream k env accepts_policy self args_).self = self ∧
      (get_tx_stream k env accepts_policy self args_).events = []) ∧
    (args_.otw_format = "" →
      get_tx_stream k env accepts_policy self args_ =
        get_tx_stream k env accepts_policy self { args_ with otw_format := "sc16" }) ∧
    (args_.otw_format = "" ∨ args_.otw_format = "sc16" →
      ∀ what, (get_tx_stream k env accepts_policy self args_).result ≠
        .error (.value_error what)) := by
  refine ⟨?_, ?_, ?_⟩
  · intro h1 h2
    have hf : default_otw_format args_ = args_.otw_format := by
      simp [default_otw_format, h1]
    simp [get_tx_stream, hf, h2]
  · intro h
    have hf : default_otw_format args_ = "sc16" := by simp [default_otw_format, h]
    have hf2 : default_otw_format { args_ with otw_format := "sc16" } = "sc16" := by
      simp [default_otw_format]
    have hc : default_channels { args_ with otw_format := "sc16" } = default_channels args_ :=
      rfl
    simp only [get_tx_stream, hf, hf2, hc]
  · intro h what hres
    have hf : default_otw_format args_ = "sc16" := by
      rcases h with h | h <;> simp [default_otw_format, h]
    unfold get_tx_stream at hres
    simp only [hf, ne_eq, not_true_eq_false, if_false] at hres
    split at hres
    · simp at hres
    · simp at hres
    · split at hres
      · simp at hres
      · split at hres
        · rename_i heq
          simp only [Except.error.injEq] at hres
          rw [hres] at heq
          exact absurd (congrArg (fun r => r.2.2) heq)
            (bind_tx_channels_no_value_error _ _ _ _ _ _ _ _)
        · simp at hres

/-- Witness for C11: a request for the wire format `fc32` on a device whose transmit
entry points to streamer 0. -/
theorem tx_stream_rejects_other_wire_formats_witness :
    (get_tx_stream sample_host_consts sample_env (fun _ => true) sample_impl_streaming
        ⟨"fc32", "fc32", [("underflow_policy", "next_burst")], [0]⟩).result =
      .error (.value_error "USRP TX cannot handle requested wire format: fc32") ∧
    (get_tx_stream sample_host_consts sample_env (fun _ => true) sample_impl_streaming
        ⟨"fc32", "fc32", [("underflow_policy", "next_burst")], [0]⟩).self =
      sample_impl_streaming ∧
    (get_tx_stream sample_host_consts sample_env (fun _ => true) sample_impl_streaming
        ⟨"fc32", "fc32", [("underflow_policy", "next_burst")], [0]⟩).events = [] :=
  (tx_stream_rejects_other_wire_formats sample_host_consts sample_env (fun _ => true)
    sample_impl_streaming ⟨"fc32", "fc32", [("underflow_policy", "next_burst")], [0]⟩).1
    (by decide) (by decide)

/-! ## C12: rate updates and weak pointers -/

theorem with_tick_rate_twice (rate : ℚ) (s : streamer_t) :
    with_tick_rate rate (with_tick_rate rate s) = with_tick_rate rate s := rfl

theorem update_tick_rate_loop_apply (rate : ℚ) :
    ∀ (weaks : List (Option Nat)) (objs : Streamers) (id : Nat),
      update_tick_rate_loop rate weaks objs id =
        if some id ∈ weaks then (objs id).map (with_tick_rate rate) else objs id := by
  intro weaks
  induction weaks with
  | nil => intro objs id; simp [update_tick_rate_loop]
  | cons weak rest ih =>
    intro objs id
    cases weak with
    | none =>
      simp only [update_tick_rate_loop, lock, ih]
      simp
    | some w =>
      cases hw : objs w with
      | none =>
        simp only [update_tick_rate_loop, lock, hw, ih]
        by_cases hid : id = w
        · subst hid
          simp [hw]
        · simp [hid]
      | some s =>
        simp only [update_tick_rate_loop, lock, hw, ih]
        by_cases hid : id = w
        · subst hid
          simp [hw, with_tick_rate_twice]
        · simp [hid, Function.update_noteq hid]

theorem update_tick_rate_apply (self : b100_impl) (objs : Streamers) (rate : ℚ) (id : Nat) :
    update_tick_rate self objs rate id =
      if some id ∈ self._rx_streamers ∨ some id ∈ self._tx_streamers then
        (objs id).map (with_tick_rate rate)
      else objs id := by
  simp only [update_tick_rate, update_tick_rate_loop_apply]
  by_cases h1 : some id ∈ self._rx_streamers <;> by_cases h2 : some id ∈ self._tx_streamers <;>
    simp [h1, h2]
  cases objs id <;> simp [with_tick_rate_twice]

/-- C12. `update_tick_rate` sets the tick rate of every streamer object that is alive and
has a weak pointer in `_rx_streamers` or `_tx_streamers`, and changes nothing else of it;
an expired weak pointer is skipped (a destroyed object stays destroyed), and an object
that neither table points to is left as it is.  `update_rx_samp_rate` and
`update_tx_samp_rate`, for a `dspno` within the table whose weak pointer is empty or has
expired, return with no object changed.  When no weak pointer of the two tables is
alive, `update_tick_rate` changes no object. -/
theorem rate_updates_reach_live_streamers (self : b100_impl) (objs : Streamers)
    (get_scaling_adjustment : Nat → ℚ) (rate : ℚ) :
    (∀ id s, (some id ∈ self._rx_streamers ∨ some id ∈ self._tx_streamers) →
      objs id = some s →
      update_tick_rate self objs rate id = some { s with tick_rate := rate }) ∧
    (∀ id, objs id = none → update_tick_rate self objs rate id = none) ∧
    (∀ id, some id ∉ self._rx_streamers → some id ∉ self._tx_streamers →
      update_tick_rate self objs rate id = objs id) ∧
    (∀ dspno (h : dspno < self._rx_streamers.length),
      lock objs (self._rx_streamers.get ⟨dspno, h⟩) = none →
      update_rx_samp_rate self get_scaling_adjustment objs dspno rate = some objs) ∧
    (∀ dspno (h : dspno < self._tx_streamers.length),
      lock objs (self._tx_streamers.get ⟨dspno, h⟩) = none →
      update_tx_samp_rate self objs dspno rate = some objs) ∧
    ((∀ weak ∈ self._rx_streamers ++ self._tx_streamers, lock objs weak = none) →
      update_tick_rate self objs rate = objs) := by
  refine ⟨?_, ?_, ?_, ?_, ?_, ?_⟩
  · intro id s hmem hs
    rw [update_tick_rate_apply, if_pos hmem, hs]
    rfl
  · intro id hs
    rw [update_tick_rate_apply, hs]
    simp
  · intro id h1 h2
    rw [update_tick_rate_apply, if_neg (by simp [h1, h2])]
  · intro dspno h hl
    unfold update_rx_samp_rate
    rw [dif_pos h, hl]
  · intro dspno h hl
    unfold update_tx_samp_rate
    rw [dif_pos h, hl]
  · intro hall
    funext id
    rw [update_tick_rate_apply]
    split_ifs with hmem
    · have hl := hall (some id) (by simpa using hmem)
      cases hs : objs id with
      | none => rfl
      | some s => simp [lock, hs] at hl
    · rfl

/-- Witness for C12: receive DSP 0 and the transmit DSP point to the live streamer 0, receive
DSP 1 to a destroyed streamer.  The tick rate 5 reaches streamer 0, streamer 1 stays
destroyed, and a sample rate update for receive DSP 1 changes nothing. -/
theorem rate_updates_reach_live_streamers_witness :
    update_tick_rate sample_impl_streaming sample_streamers 5 0 = some ⟨5, 2, 3⟩ ∧
    update_tick_rate sample_impl_streaming sample_streamers 5 1 = none ∧
    update_rx_samp_rate sample_impl_streaming (fun _ => 1) sample_streamers 1 7 =
      some sample_streamers :=
  have h := rate_updates_reach_live_streamers sample_impl_streaming sample_streamers
    (fun _ => 1) 5
  ⟨h.1 0 ⟨1, 2, 3⟩ (Or.inl (by decide)) rfl, h.2.1 1 rfl,
    (rate_updates_reach_live_streamers sample_impl_streaming sample_streamers (fun _ => 1)
      7).2.2.2.1 1 (by decide) rfl⟩

end B100

namespace Fw

/-! ## C13, C14: the firmware registers -/

theorem dispatch_reg (b : Build) (c : Consts) (hw : Hw) (fw_regs : FwRegs)
    (src : socket_address) (req out : usrp2_ctrl_data_t) (payload_len : Int)
    (hnodup : (case_labels b c).Nodup) :
    dispatch b c hw fw_regs src req out payload_len
        c.USRP2_CTRL_ID_GET_THIS_REGISTER_FOR_ME_BRO =
      case_reg c hw fw_regs req out := by
  unfold dispatch
  cases hb : b.UMTRX <;> cases hn : b.NO_SPI_I2C <;>
    simp [case_labels, hb, hn] at hnodup <;>
    simp only [Bool.false_eq_true, Bool.true_eq_false, false_and, true_and, if_false] <;>
    (split_ifs <;> first | rfl | omega)

theorem case_reg_fw_peek (c : Consts) (hw : Hw) (fw_regs : FwRegs)
    (req out : usrp2_ctrl_data_t) (hact : (reg_actions c).Nodup)
    (h : req.data.reg_args.action = c.USRP2_REG_ACTION_FW_PEEK32) :
    case_reg c hw fw_regs req out =
      ⟨fw_regs,
        { out with data.reg_args.data := fw_regs_get hw fw_regs req.data.reg_args.addr,
                   id := c.USRP2_CTRL_ID_OMG_GOT_REGISTER_SO_BAD_DUDE },
        [Event.fw_regs_read req.data.reg_args.addr], false⟩ := by
  simp only [reg_actions, List.nodup_cons, List.mem_cons, List.mem_singleton, not_or,
    List.not_mem_nil, not_false_eq_true, List.nodup_nil, and_true] at hact
  obtain ⟨⟨_, _, _, h04, _⟩, ⟨_, _, h14, _⟩, ⟨_, h24, _⟩, ⟨h34, _⟩, _⟩ := hact
  simp [case_reg, h, Ne.symm h04, Ne.symm h14, Ne.symm h24, Ne.symm h34]

theorem case_reg_fw_poke (c : Consts) (hw : Hw) (fw_regs : FwRegs)
    (req out : usrp2_ctrl_data_t) (hact : (reg_actions c).Nodup)
    (h : req.data.reg_args.action = c.USRP2_REG_ACTION_FW_POKE32) :
    case_reg c hw fw_regs req out =
      ⟨fw_regs_set fw_regs req.data.reg_args.addr req.data.reg_args.data,
        { out with id := c.USRP2_CTRL_ID_OMG_GOT_REGISTER_SO_BAD_DUDE },
        [Event.fw_regs_write req.data.reg_args.addr req.data.reg_args.data], false⟩ := by
  simp only [reg_actions, List.nodup_cons, List.mem_cons, List.mem_singleton, not_or,
    List.not_mem_nil, not_false_eq_true, List.nodup_nil, and_true] at hact
  obtain ⟨⟨_, _, _, _, h05⟩, ⟨_, _, _, h15⟩, ⟨_, _, h25⟩, ⟨_, h35⟩, h45⟩ := hact
  simp [case_reg, h, Ne.symm h05, Ne.symm h15, Ne.symm h25, Ne.symm h35, Ne.symm h45]

theorem handle_full_reg (b : Build) (c : Consts) (hw : Hw) (fw_regs : FwRegs)
    (out0 : usrp2_ctrl_data_t) (src dst : socket_address) (req : usrp2_ctrl_data_t)
    (payload_len : Int) (hnodup : (case_labels b c).Nodup)
    (hfull : (c.sizeof_usrp2_ctrl_data_t : Int) ≤ payload_len) (hint : payload_len < 2 ^ 31)
    (h4 : sizeof_uint32_t ≤ c.sizeof_usrp2_ctrl_data_t)
    (hver : req.proto_ver = c.USRP2_FW_COMPAT_NUM)
    (hid : req.id = c.USRP2_CTRL_ID_GET_THIS_REGISTER_FOR_ME_BRO) :
    handle_udp_ctrl_packet b c hw fw_regs out0 src dst req payload_len =
      ((case_reg c hw fw_regs req
          { out0 with proto_ver := c.USRP2_FW_COMPAT_NUM, id := c.USRP2_CTRL_ID_HUH_WHAT,
                      seq := req.seq }).fw_regs,
        (case_reg c hw fw_regs req
          { out0 with proto_ver := c.USRP2_FW_COMPAT_NUM, id := c.USRP2_CTRL_ID_HUH_WHAT,
                      seq := req.seq }).events ++
        (if (case_reg c hw fw_regs req
              { out0 with proto_ver := c.USRP2_FW_COMPAT_NUM, id := c.USRP2_CTRL_ID_HUH_WHAT,
                          seq := req.seq }).returned then []
         else [Event.send_udp_pkt c.USRP2_UDP_CTRL_PORT src
                (case_reg c hw fw_regs req
                  { out0 with proto_ver := c.USRP2_FW_COMPAT_NUM,
                              id := c.USRP2_CTRL_ID_HUH_WHAT,
                              seq := req.seq }).ctrl_data_out
                c.sizeof_usrp2_ctrl_data_t])) := by
  have hfid := final_id_full b c req payload_len hfull hint h4
  have hp := validation_prints_full c req payload_len hfull hint h4
  simp only [hver, ne_eq, not_true_eq_false, false_and, if_false, hid] at hfid hp
  simp [handle_udp_ctrl_packet, hfid, hp, dispatch_reg _ _ _ _ _ _ _ _ hnodup]

theorem dispatch_keeps_fw_regs (b : Build) (c : Consts) (hw : Hw) (fw_regs : FwRegs)
    (src : socket_address) (req out : usrp2_ctrl_data_t) (payload_len : Int) (id : Nat)
    (h : ¬ (id = c.USRP2_CTRL_ID_GET_THIS_REGISTER_FOR_ME_BRO ∧
            req.data.reg_args.action = c.USRP2_REG_ACTION_FW_POKE32)) :
    (dispatch b c hw fw_regs src req out payload_len id).fw_regs = fw_regs := by
  unfold dispatch
  split_ifs with h1 h2 h3 h4 h5 h6 h7 h8
  · rfl
  · rfl
  · simp only [case_zpu]; split_ifs <;> rfl
  · rfl
  · rfl
  · rfl
  · simp only [case_reg]
    split_ifs with a1 a2 a3 a4 a5 a6
    · rfl
    · rfl
    · rfl
    · rfl
    · rfl
    · exact absurd ⟨h7, a6⟩ h
    · rfl
  · rfl
  · rfl

theorem handle_full_fw_peek (b : Build) (c : Consts) (hw : Hw) (fw_regs : FwRegs)
    (out0 : usrp2_ctrl_data_t) (src dst : socket_address) (req : usrp2_ctrl_data_t)
    (payload_len : Int) (hnodup : (case_labels b c).Nodup) (hact : (reg_actions c).Nodup)
    (hfull : (c.sizeof_usrp2_ctrl_data_t : Int) ≤ payload_len) (hint : payload_len < 2 ^ 31)
    (h4 : sizeof_uint32_t ≤ c.sizeof_usrp2_ctrl_data_t)
    (hver : req.proto_ver = c.USRP2_FW_COMPAT_NUM)
    (hid : req.id = c.USRP2_CTRL_ID_GET_THIS_REGISTER_FOR_ME_BRO)
    (ha : req.data.reg_args.action = c.USRP2_REG_ACTION_FW_PEEK32) :
    handle_udp_ctrl_packet b c hw fw_regs out0 src dst req payload_len =
      (fw_regs,
        [Event.fw_regs_read req.data.reg_args.addr,
         Event.send_udp_pkt c.USRP2_UDP_CTRL_PORT src
           { out0 with proto_ver := c.USRP2_FW_COMPAT_NUM,
                       id := c.USRP2_CTRL_ID_OMG_GOT_REGISTER_SO_BAD_DUDE,
                       seq := req.seq,
                       data.reg_args.data := fw_regs_get hw fw_regs req.data.reg_args.addr }
           c.sizeof_usrp2_ctrl_data_t]) := by
  rw [handle_full_reg b c hw fw_regs out0 src dst req payload_len hnodup hfull hint h4 hver hid,
    case_reg_fw_peek c hw fw_regs req _ hact ha]
  rfl

theorem handle_full_fw_poke (b : Build) (c : Consts) (hw : Hw) (fw_regs : FwRegs)
    (out0 : usrp2_ctrl_data_t) (src dst : socket_address) (req : usrp2_ctrl_data_t)
    (payload_len : Int) (hnodup : (case_labels b c).Nodup) (hact : (reg_actions c).Nodup)
    (hfull : (c.sizeof_usrp2_ctrl_data_t : Int) ≤ payload_len) (hint : payload_len < 2 ^ 31)
    (h4 : sizeof_uint32_t ≤ c.sizeof_usrp2_ctrl_data_t)
    (hver : req.proto_ver = c.USRP2_FW_COMPAT_NUM)
    (hid : req.id = c.USRP2_CTRL_ID_GET_THIS_REGISTER_FOR_ME_BRO)
    (ha : req.data.reg_args.action = c.USRP2_REG_ACTION_FW_POKE32) :
    handle_udp_ctrl_packet b c hw fw_regs out0 src dst req payload_len =
      (fw_regs_set fw_regs req.data.reg_args.addr req.data.reg_args.data,
        [Event.fw_regs_write req.data.reg_args.addr req.data.reg_args.data,
         Event.send_udp_pkt c.USRP2_UDP_CTRL_PORT src
           { out0 with proto_ver := c.USRP2_FW_COMPAT_NUM,
                       id := c.USRP2_CTRL_ID_OMG_GOT_REGISTER_SO_BAD_DUDE,
                       seq := req.seq }
           c.sizeof_usrp2_ctrl_data_t]) := by
  rw [handle_full_reg b c hw fw_regs out0 src dst req payload_len hnodup hfull hint h4 hver hid,
    case_reg_fw_poke c hw fw_regs req _ hact ha]
  rfl

/-- C13 (amended). Firmware virtual-register access is not bounds-checked by
`handle_udp_ctrl_packet`: for every full-size, correct-version register request with
action `USRP2_REG_ACTION_FW_PEEK32` or `USRP2_REG_ACTION_FW_POKE32` the handler makes the
array access `fw_regs[addr]` with the `addr` of the request, whatever its value, also
8 or more, and then sends the register response.  For `addr < 8` the peek returns
element `addr` and the poke stores `data` into element `addr`. -/
theorem fw_register_access_is_unchecked (b : Build) (c : Consts) (hw : Hw) (fw_regs : FwRegs)
    (out0 : usrp2_ctrl_data_t) (src dst : socket_address) (req : usrp2_ctrl_data_t)
    (payload_len : Int) (hnodup : (case_labels b c).Nodup) (hact : (reg_actions c).Nodup)
    (hfull : (c.sizeof_usrp2_ctrl_data_t : Int) ≤ payload_len) (hint : payload_len < 2 ^ 31)
    (h4 : sizeof_uint32_t ≤ c.sizeof_usrp2_ctrl_data_t)
    (hver : req.proto_ver = c.USRP2_FW_COMPAT_NUM)
    (hid : req.id = c.USRP2_CTRL_ID_GET_THIS_REGISTER_FOR_ME_BRO) :
    (req.data.reg_args.action = c.USRP2_REG_ACTION_FW_PEEK32 →
      handle_udp_ctrl_packet b c hw fw_regs out0 src dst req payload_len =
        (fw_regs,
          [Event.fw_regs_read req.data.reg_args.addr,
           Event.send_udp_pkt c.USRP2_UDP_CTRL_PORT src
             { out0 with proto_ver := c.USRP2_FW_COMPAT_NUM,
                         id := c.USRP2_CTRL_ID_OMG_GOT_REGISTER_SO_BAD_DUDE,
                         seq := req.seq,
                         data.reg_args.data := fw_regs_get hw fw_regs req.data.reg_args.addr }
             c.sizeof_usrp2_ctrl_data_t])) ∧
    (req.data.reg_args.action = c.USRP2_REG_ACTION_FW_POKE32 →
      handle_udp_ctrl_packet b c hw fw_regs out0 src dst req payload_len =
        (fw_regs_set fw_regs req.data.reg_args.addr req.data.reg_args.data,
          [Event.fw_regs_write req.data.reg_args.addr req.data.reg_args.data,
           Event.send_udp_pkt c.USRP2_UDP_CTRL_PORT src
             { out0 with proto_ver := c.USRP2_FW_COMPAT_NUM,
                         id := c.USRP2_CTRL_ID_OMG_GOT_REGISTER_SO_BAD_DUDE,
                         seq := req.seq }
             c.sizeof_usrp2_ctrl_data_t])) ∧
    (∀ h8 : req.data.reg_args.addr < 8,
      fw_regs_get hw fw_regs req.data.reg_args.addr = fw_regs ⟨req.data.reg_args.addr, h8⟩ ∧
      fw_regs_set fw_regs req.data.reg_args.addr req.data.reg_args.data =
        Function.update fw_regs ⟨req.data.reg_args.addr, h8⟩ req.data.reg_args.data) := by
  refine ⟨?_, ?_, ?_⟩
  · intro ha
    exact handle_full_fw_peek b c hw fw_regs out0 src dst req payload_len hnodup hact hfull
      hint h4 hver hid ha
  · intro ha
    exact handle_full_fw_poke b c hw fw_regs out0 src dst req payload_len hnodup hact hfull
      hint h4 hver hid ha
  · intro h8
    simp [fw_regs_get, fw_regs_set, h8]

/-- Witness for C13 (amended): a peek of firmware register 9, past the end of the array. -/
theorem fw_register_access_is_unchecked_witness :
    handle_udp_ctrl_packet sample_build sample_consts sample_hw zero_fw_regs zero_ctrl_data
        sample_src sample_dst (reg_request 9 0 5) 36 =
      (zero_fw_regs,
        [Event.fw_regs_read 9,
         Event.send_udp_pkt 49152 sample_src
           { zero_ctrl_data with proto_ver := 11, id := 82,
                                 data.reg_args.data := fw_regs_get sample_hw zero_fw_regs 9 }
           36]) :=
  (fw_register_access_is_unchecked sample_build sample_consts sample_hw zero_fw_regs
    zero_ctrl_data sample_src sample_dst (reg_request 9 0 5) 36
    (by decide) (by decide) (by decide) (by decide) (by decide) (by decide) (by decide)).1
    (by decide)

/-- C13 (counterexample). A full-size, version-11 register request with action
`USRP2_REG_ACTION_FW_POKE32` (6), `addr` 9 and `data` 77: the handler executes the
assignment `fw_regs[9] = 77`, with an index past the end of the 8-element array, and
answers with the register response (id 82). -/
theorem fw_poke_out_of_range_counterexample :
    (8 : Nat) ≤ (reg_request 9 77 6).data.reg_args.addr ∧
    (handle_udp_ctrl_packet sample_build sample_consts sample_hw zero_fw_regs zero_ctrl_data
        sample_src sample_dst (reg_request 9 77 6) 36).2 =
      [Event.fw_regs_write 9 77,
       Event.send_udp_pkt 49152 sample_src { zero_ctrl_data with proto_ver := 11, id := 82 }
         36] := by
  refine ⟨by decide, ?_⟩
  decide

/-- C14. For every index `i < 8` and every value `v`, a full-size, correct-version
register request with action `USRP2_REG_ACTION_FW_POKE32`, `addr` `i` and `data` `v`,
followed by one with action `USRP2_REG_ACTION_FW_PEEK32` and `addr` `i`: the second
call sends one response, with id `USRP2_CTRL_ID_OMG_GOT_REGISTER_SO_BAD_DUDE` and
`reg_args.data = v`.  The poke makes `fw_regs[i] = v` and leaves every `fw_regs[j]` with
`j != i` unchanged.  No request changes `fw_regs` unless its opcode after the version
and length checks is the register request and its action is
`USRP2_REG_ACTION_FW_POKE32`. -/
theorem fw_poke_then_peek (b : Build) (c : Consts) (hw : Hw) (fw_regs : FwRegs)
    (out0 out1 : usrp2_ctrl_data_t) (src dst : socket_address)
    (poke peek : usrp2_ctrl_data_t) (len0 len1 : Int) (i v : Nat)
    (hnodup : (case_labels b c).Nodup) (hact : (reg_actions c).Nodup)
    (h4 : sizeof_uint32_t ≤ c.sizeof_usrp2_ctrl_data_t)
    (hfull0 : (c.sizeof_usrp2_ctrl_data_t : Int) ≤ len0) (hint0 : len0 < 2 ^ 31)
    (hfull1 : (c.sizeof_usrp2_ctrl_data_t : Int) ≤ len1) (hint1 : len1 < 2 ^ 31)
    (hi : i < 8)
    (hver0 : poke.proto_ver = c.USRP2_FW_COMPAT_NUM)
    (hid0 : poke.id = c.USRP2_CTRL_ID_GET_THIS_REGISTER_FOR_ME_BRO)
    (hact0 : poke.data.reg_args.action = c.USRP2_REG_ACTION_FW_POKE32)
    (haddr0 : poke.data.reg_args.addr = i) (hdata0 : poke.data.reg_args.data = v)
    (hver1 : peek.proto_ver = c.USRP2_FW_COMPAT_NUM)
    (hid1 : peek.id = c.USRP2_CTRL_ID_GET_THIS_REGISTER_FOR_ME_BRO)
    (hact1 : peek.data.reg_args.action = c.USRP2_REG_ACTION_FW_PEEK32)
    (haddr1 : peek.data.reg_args.addr = i) :
    (handle_udp_ctrl_packet b c hw
        (handle_udp_ctrl_packet b c hw fw_regs out0 src dst poke len0).1
        out1 src dst peek len1).2.filter Event.is_send =
      [Event.send_udp_pkt c.USRP2_UDP_CTRL_PORT src
        { out1 with proto_ver := c.USRP2_FW_COMPAT_NUM,
                    id := c.USRP2_CTRL_ID_OMG_GOT_REGISTER_SO_BAD_DUDE,
                    seq := peek.seq, data.reg_args.data := v }
        c.sizeof_usrp2_ctrl_data_t] ∧
    (handle_udp_ctrl_packet b c hw fw_regs out0 src dst poke len0).1 ⟨i, hi⟩ = v ∧
    (∀ j : Fin 8, j.val ≠ i →
      (handle_udp_ctrl_packet b c hw fw_regs out0 src dst poke len0).1 j = fw_regs j) ∧
    (∀ (out : usrp2_ctrl_data_t) (req : usrp2_ctrl_data_t) (len : Int),
      ¬ (final_id b c req len = c.USRP2_CTRL_ID_GET_THIS_REGISTER_FOR_ME_BRO ∧
         req.data.reg_args.action = c.USRP2_REG_ACTION_FW_POKE32) →
      (handle_udp_ctrl_packet b c hw fw_regs out src dst req len).1 = fw_regs) := by
  subst haddr1
  subst hdata0
  have hpoke := handle_full_fw_poke b c hw fw_regs out0 src dst poke len0 hnodup
    hact hfull0 hint0 h4 hver0 hid0 hact0
  have hset : fw_regs_set fw_regs poke.data.reg_args.addr poke.data.reg_args.data =
      Function.update fw_regs ⟨peek.data.reg_args.addr, hi⟩ poke.data.reg_args.data := by
    simp [fw_regs_set, haddr0, hi]
  rw [hset] at hpoke
  have hpeek := handle_full_fw_peek b c hw
    (Function.update fw_regs ⟨peek.data.reg_args.addr, hi⟩ poke.data.reg_args.data)
    out1 src dst peek len1 hnodup hact hfull1 hint1 h4 hver1 hid1 hact1
  have hget : fw_regs_get hw
      (Function.update fw_regs ⟨peek.data.reg_args.addr, hi⟩ poke.data.reg_args.data)
      peek.data.reg_args.addr = poke.data.reg_args.data := by
    simp [fw_regs_get, hi]
  rw [hget] at hpeek
  refine ⟨?_, ?_, ?_, ?_⟩
  · rw [hpoke]
    simp only []
    rw [hpeek]
    simp [Event.is_send]
  · rw [hpoke]
    simp
  · intro j hj
    rw [hpoke]
    have hne : j ≠ ⟨peek.data.reg_args.addr, hi⟩ := fun h => hj (by rw [h])
    simp [Function.update_noteq hne]
  · intro out req len hnot
    simp only [handle_udp_ctrl_packet]
    exact dispatch_keeps_fw_regs b c hw fw_regs src req _ len _ hnot

/-- Witness for C14: poke 77 into firmware register 3, then peek register 3. -/
theorem fw_poke_then_peek_witness :
    (handle_udp_ctrl_packet sample_build sample_consts sample_hw
        (handle_udp_ctrl_packet sample_build sample_consts sample_hw zero_fw_regs
          zero_ctrl_data sample_src sample_dst (reg_request 3 77 6) 36).1
        zero_ctrl_data sample_src sample_dst (reg_request 3 0 5) 36).2.filter Event.is_send =
      [Event.send_udp_pkt 49152 sample_src
        { zero_ctrl_data with proto_ver := 11, id := 82, data.reg_args.data := 77 } 36] :=
  (fw_poke_then_peek sample_build sample_consts sample_hw zero_fw_regs zero_ctrl_data
    zero_ctrl_data sample_src sample_dst (reg_request 3 77 6) (reg_request 3 0 5) 36 36 3 77
    (by decide) (by decide) (by decide) (by decide) (by decide) (by decide) (by decide)
    (by decide) rfl rfl rfl rfl rfl rfl rfl rfl rfl).1

/-! ## C15: the framer after a destination unreachable -/

/-- C15 (the code on the failing inputs). When `handle_udp_data_packet` is called with
`payload == NULL` and `src.port` is the RX port of a lane, the handler, after the three
register writes, goes on past the second switch and calls `setup_framer` once, with
`which = 0`: the framer of lane 0 is programmed with the `src` and `dst` of the
unreachable report, whichever lane the report was for. -/
theorem unreachable_still_programs_framer (c : Consts) (hw : Hw) (eth_mac_host0 : Nat)
    (regs : RxCtrlRegs) (src dst : socket_address) (payload_len : Int) (r : RxCtrlReg)
    (hports : (rx_ports c).Nodup) (hport : src.port = rx_port c r) :
    (handle_udp_data_packet c hw eth_mac_host0 regs src dst none payload_len).2.filter
        Event.is_setup_framer =
      [Event.setup_framer (hw.arp_cache_lookup_mac src.addr eth_mac_host0)
        hw.ethernet_mac_addr src dst 0] := by
  have hcase := unreachable_case_of_port c hports r
  rw [← hport] at hcase
  simp [handle_udp_data_packet, hcase, end_streaming, program_framer, Event.is_setup_framer]

/-- Witness for C15: destination unreachable reported for the RX port of DSP1 (49158); the
framer of lane 0 is programmed. -/
theorem unreachable_still_programs_framer_witness :
    (handle_udp_data_packet sample_consts sample_hw 0 sample_regs ⟨167772165, 49158⟩
        sample_dst none 0).2.filter Event.is_setup_framer =
      [Event.setup_framer 167773165 2 ⟨167772165, 49158⟩ sample_dst 0] :=
  unreachable_still_programs_framer sample_consts sample_hw 0 sample_regs
    ⟨167772165, 49158⟩ sample_dst 0 .sr_rx_ctrl1 (by decide) rfl

end Fw

namespace B100

/-! ## C16: a buffer whose header cannot be unpacked -/

/-- C16 (the code on the failing inputs). When `vrt::if_hdr_unpack_le` throws, the
exception is caught and logged and `handle_async_message` goes on to test
`if_packet_info` as the failed call left it.  If that content has `sid` equal to
`B100_TX_ASYNC_SID` and a `packet_type` other than `PACKET_TYPE_DATA`, a record made
from it is pushed onto `async_msg_fifo`. -/
theorem failed_unpack_still_pushes (k : HostConsts) (env : Env) (info0 : if_packet_info_t)
    (io : io_impl) (rbuf : managed_recv_buffer) (what : String) (info : if_packet_info_t)
    (hthrew : env.if_hdr_unpack_le rbuf.words
        { info0 with num_packet_words32 := rbuf.size / k.sizeof_uint32 } = .threw what info)
    (hsid : info.sid = k.B100_TX_ASYNC_SID)
    (htype : info.packet_type ≠ k.PACKET_TYPE_DATA) :
    (handle_async_message k env info0 io rbuf).1.async_msg_fifo =
      io.async_msg_fifo.push_with_pop_on_full (async_metadata_of k env rbuf.words info) ∧
    (handle_async_message k env info0 io rbuf).2 =
      Msg.error ("Error (handle_async_message): " ++ what) ::
        fastpath_msgs k (env.get_context_code rbuf.words info) := by
  have hc : is_tx_async_message k info = true := by
    simp [is_tx_async_message, hsid, htype]
  simp [handle_async_message, hthrew, Unpack.info, hc, async_metadata_of]

/-- Witness for C16: a buffer of two words, on which the unpacker of `sample_env` throws,
while the local `if_packet_info` holds `sid` 1 and `packet_type` 2; a record is pushed
onto the empty queue. -/
theorem failed_unpack_still_pushes_witness :
    (handle_async_message sample_host_consts sample_env
        { zero_info with sid := 1, packet_type := 2 } io_impl.make ⟨8, [2, 1]⟩).1.async_msg_fifo =
      (io_impl.make.async_msg_fifo.push_with_pop_on_full
        (async_metadata_of sample_host_consts sample_env [2, 1]
          { zero_info with sid := 1, packet_type := 2, num_packet_words32 := 2 })) ∧
    (handle_async_message sample_host_consts sample_env
        { zero_info with sid := 1, packet_type := 2 } io_impl.make ⟨8, [2, 1]⟩).2 =
      Msg.error ("Error (handle_async_message): " ++ "bad vrt header") ::
        fastpath_msgs sample_host_consts
          (sample_env.get_context_code [2, 1]
            { zero_info with sid := 1, packet_type := 2, num_packet_words32 := 2 }) :=
  failed_unpack_still_pushes sample_host_consts sample_env
    { zero_info with sid := 1, packet_type := 2 } io_impl.make ⟨8, [2, 1]⟩ "bad vrt header"
    { zero_info with sid := 1, packet_type := 2, num_packet_words32 := 2 } rfl rfl (by decide)

end B100
